import Mathlib

/-!
Shallow embedding of the OrpheusDL Beatport module (src/beatport_api.py and
src/interface.py): Python/JSON values, the session and auth lifecycle, the
HTTP dispatcher with its 401 refresh-and-retry cycle and 403/404 body
classification, the pagination aggregators, and the artwork-URL templating.
Definitions are translated from the source; the theorems settle the frozen
claims C1-C10.  The `requests` / `re` / `json` standard-library layer is
modelled by explicit response records carrying the parsed JSON body.
-/

namespace Beatport

/-- Python/JSON values as returned by `requests.Response.json()` and stored on
`BeatportApi` fields.  Floats do not occur in any claim-relevant field, so
numbers are modelled as unbounded Python integers. -/
inductive PyVal where
  | vnone  : PyVal
  | vbool  : Bool → PyVal
  | vint   : Int → PyVal
  | vstr   : String → PyVal
  | vlist  : List PyVal → PyVal
  | vdict  : List (String × PyVal) → PyVal

/-- Python exceptions that the embedded code can raise.  `beatportError` is the
module's own `BeatportError`; the others are Python built-ins. -/
inductive PyErr where
  | valueError      (msg : String)
  | keyError        (key : String)
  | typeError
  | attributeError
  | indexError
  | connectionError (msg : String)
  | beatportError   (msg : String)

/-- A Python dict with string keys, in insertion order (keys unique in all
actual uses). -/
abbrev Dict := List (String × PyVal)

/-- First value bound to key `k`, if present (`k in d` / `d[k]` lookup). -/
def dLookup (d : Dict) (k : String) : Option PyVal :=
  match d with
  | [] => none
  | (k', v) :: rest => if k' = k then some v else dLookup rest k

/-- Python `k in d` for a dict. -/
def keyIn (k : String) (d : Dict) : Bool :=
  (dLookup d k).isSome

/-- Python `d.get(k, dflt)`. -/
def dGetD (d : Dict) (k : String) (dflt : PyVal) : PyVal :=
  (dLookup d k).getD dflt

/-- Python `d.get(k)` (default `None`). -/
def dGet (d : Dict) (k : String) : PyVal :=
  dGetD d k .vnone

/-- Python `x[k]` string indexing: KeyError on a dict without the key,
TypeError on any non-dict value. -/
def pyIndex (v : PyVal) (k : String) : Except PyErr PyVal :=
  match v with
  | .vdict d =>
    match dLookup d k with
    | some x => .ok x
    | none => .error (.keyError k)
  | _ => .error .typeError

/-- Python truthiness. -/
def pyTruthy : PyVal → Bool
  | .vnone => false
  | .vbool b => b
  | .vint n => n != 0
  | .vstr s => !s.isEmpty
  | .vlist xs => !xs.isEmpty
  | .vdict d => !d.isEmpty

/-- Python iteration over a value (as used by `list.extend` / `list += x` /
generator expressions): lists yield elements, strings yield their characters
as one-character strings, dicts yield their keys; other values raise
TypeError. -/
def pyIterate : PyVal → Except PyErr (List PyVal)
  | .vlist xs => .ok xs
  | .vstr s => .ok (s.data.map fun c => .vstr (String.singleton c))
  | .vdict d => .ok (d.map fun kv => PyVal.vstr kv.1)
  | _ => .error .typeError

/-- Python `x or y`: `x` when truthy, else `y`. -/
def pyOr (x y : PyVal) : PyVal :=
  if pyTruthy x then x else y

/-- Python `acc += v` for a list `acc` (extend with an iterable) and string
concatenation for strings; anything else raises TypeError. -/
def pyIAdd (acc v : PyVal) : Except PyErr PyVal :=
  match acc with
  | .vlist xs =>
    match pyIterate v with
    | .ok ys => .ok (.vlist (xs ++ ys))
    | .error e => .error e
  | .vstr a =>
    match v with
    | .vstr b => .ok (.vstr (a ++ b))
    | _ => .error .typeError
  | _ => .error .typeError

/-- ASCII lower-casing, modelling `str.lower()` on the ASCII messages the
upstream API produces. -/
def strLower (s : String) : String :=
  String.mk (s.data.map Char.toLower)

/-- Pattern `p` matches at the head of `t` (literal character-by-character match). -/
def matchesAt : List Char → List Char → Bool
  | [], _ => true
  | _ :: _, [] => false
  | c :: p, d :: t => c = d && matchesAt p t

/-- Python `p in t` substring containment on character lists. -/
def subChars (p : List Char) : List Char → Bool
  | [] => matchesAt p []
  | t@(_ :: t') => matchesAt p t || subChars p t'

/-- Python `p in t` substring containment on strings. -/
def subStr (p t : String) : Bool :=
  subChars p.data t.data

/-- The mutable token state of a `BeatportApi` instance: `self.access_token`,
`self.refresh_token`, `self.expires`.  `expires` (a `datetime` in the
source) is modelled as an integer timestamp wrapped in `PyVal`; all three
fields hold arbitrary Python values because `set_session` restores whatever
the host's key-value store returns. -/
structure Session where
  access_token : PyVal
  refresh_token : PyVal
  expires : PyVal

/-- An HTTP response as observed through the `requests` library: status code,
the result of `r.json()` (`none` when the body is not parseable JSON, in
which case `r.json()` raises `ValueError`), the raw text `r.text`, and the
`location` header (used only by `auth`). -/
structure HResp where
  status : Int
  jsonBody : Option PyVal
  text : String
  location : String

/-- Python `r.json()`: the parsed body, or the `ValueError` raised on unparseable
content. -/
def respJson (r : HResp) : Except PyErr PyVal :=
  match r.jsonBody with
  | some v => .ok v
  | none => .error (.valueError "Expecting value: line 1 column 1 (char 0)")

/-- Embedding of `BeatportApi.refresh` (src/beatport_api.py:150-162): POST the stored
refresh token to the token endpoint (whose response is `resp`).  On any
non-200 status the parsed body is returned to the caller as a signal and the
session is left untouched; on 200 the three session fields are overwritten
in sequence (so a missing key raises KeyError after the earlier fields were
already set).  `now` models `datetime.now()`; returns the Python return
value (or raised exception) together with the resulting session state. -/
def refresh (resp : HResp) (now : Int) (st : Session) :
    Except PyErr PyVal × Session :=
  if resp.status ≠ 200 then
    match respJson resp with
    | .error e => (.error e, st)
    | .ok b => (.ok b, st)
  else
    match respJson resp with
    | .error e => (.error e, st)
    | .ok b =>
      match pyIndex b "access_token" with
      | .error e => (.error e, st)
      | .ok tok =>
        let st1 : Session := { st with access_token := tok }
        match pyIndex b "refresh_token" with
        | .error e => (.error e, st1)
        | .ok rtok =>
          let st2 : Session := { st1 with refresh_token := rtok }
          match pyIndex b "expires_in" with
          | .error e => (.error e, st2)
          | .ok ei =>
            match ei with
            | .vint n => (.ok .vnone, { st2 with expires := .vint (now + n) })
            | .vbool b' =>
              (.ok .vnone,
               { st2 with expires := .vint (now + if b' then 1 else 0) })
            | _ => (.error .typeError, st2)

/-- Embedding of `BeatportApi.set_session` (src/beatport_api.py:164-167): overwrite all
three fields from `session.get(...)` (absent keys become `None`); the
previous state is discarded entirely. -/
def set_session (session : Dict) : Session :=
  { access_token := dGet session "access_token"
    refresh_token := dGet session "refresh_token"
    expires := dGet session "expires" }

/-- Embedding of `BeatportApi.get_session` (src/beatport_api.py:169-174). -/
def get_session (st : Session) : Dict :=
  [("access_token", st.access_token),
   ("refresh_token", st.refresh_token),
   ("expires", st.expires)]

/-! ### Word-boundary phrase matching (the `re` usage in the 403 handler)

The handler builds patterns `\b<escaped phrase>\b` and
`\bterritory\s+restricted\b` / `\bregion\s+restricted\b` and runs
`re.search` over the lower-cased error text.  Every phrase starts and ends
with a word character, so `\b` requires the character before (after) the
match, when there is one, to be a non-word character.  `\w` is modelled for
ASCII text (the API's messages). -/

/-- Regex `\w` (ASCII). -/
def isWordChar (c : Char) : Bool :=
  c.isAlpha || c.isDigit || c = '_'

/-- Regex `\s` (ASCII). -/
def isSpaceChar (c : Char) : Bool :=
  c = ' ' || c = '\t' || c = '\n' || c = '\x0d' || c = '\x0b' || c = '\x0c'

/-- Pattern `p` matches at the head of `t` and the character right after the match,
if any, is a non-word character (the trailing `\b`, for `p` ending in a word
character). -/
def matchesEndB : List Char → List Char → Bool
  | [], [] => true
  | [], c :: _ => !isWordChar c
  | _ :: _, [] => false
  | c :: p, d :: t => c = d && matchesEndB p t

/-- Scan of `re.search(r"\b<phrase>\b", t)` for a phrase beginning and
ending with word characters: `prev` is the character preceding the current
position (none at the start of the string). -/
def wbSearchAux (p : List Char) (prev : Option Char) : List Char → Bool
  | [] => (prev.all fun c => !isWordChar c) && matchesEndB p []
  | t@(c :: t') =>
    ((prev.all fun c' => !isWordChar c') && matchesEndB p t) ||
      wbSearchAux p (some c) t'

/-- Model of `re.search(r"\b" + re.escape(phrase) + r"\b", text)` as a Bool. -/
def wbSearch (phrase text : String) : Bool :=
  wbSearchAux phrase.data none text.data

/-- After one-or-more whitespace characters, `w2` matches with a trailing
word boundary (the `\s+<w2>\b` tail of `\b<w1>\s+<w2>\b`). -/
def afterSpaces (w2 : List Char) : List Char → Bool
  | [] => false
  | c :: t => isSpaceChar c && (matchesEndB w2 t || afterSpaces w2 t)

/-- Scan of `re.search(r"\b<w1>\s+<w2>\b", t)` for words `w1`, `w2`. -/
def twoWordSearchAux (w1 w2 : List Char) (prev : Option Char) :
    List Char → Bool
  | [] => false
  | t@(c :: t') =>
    ((prev.all fun c' => !isWordChar c') && matchesAt w1 t &&
        afterSpaces w2 (t.drop w1.length)) ||
      twoWordSearchAux w1 w2 (some c) t'

/-- Model of `re.search(r"\b<w1>\s+<w2>\b", text)` as a Bool. -/
def twoWordSearch (w1 w2 text : String) : Bool :=
  twoWordSearchAux w1.data w2.data none text.data

/-! ### Python string formatting of values (`str()` / f-string interpolation) -/

mutual

/-- Python `repr()` of a value (quote-escaping inside nested strings is not
reproduced; the theorems evaluate formatting only on scalar fields). -/
def pyRepr : PyVal → String
  | .vnone => "None"
  | .vbool b => if b then "True" else "False"
  | .vint n => toString n
  | .vstr s => "\x27" ++ s ++ "\x27"
  | .vlist xs => "[" ++ pyReprList xs ++ "]"
  | .vdict d => "\x7b" ++ pyReprDict d ++ "\x7d"

/-- Comma-separated reprs of list elements. -/
def pyReprList : List PyVal → String
  | [] => ""
  | [x] => pyRepr x
  | x :: y :: rest => pyRepr x ++ ", " ++ pyReprList (y :: rest)

/-- Comma-separated reprs of dict items. -/
def pyReprDict : List (String × PyVal) → String
  | [] => ""
  | [(k, v)] => "\x27" ++ k ++ "\x27: " ++ pyRepr v
  | (k, v) :: kv :: rest =>
    "\x27" ++ k ++ "\x27: " ++ pyRepr v ++ ", " ++ pyReprDict (kv :: rest)

end

/-- Python `str(v)` (also f-string interpolation): identity on strings,
`repr` on containers. -/
def pyFmt : PyVal → String
  | .vstr s => s
  | .vnone => "None"
  | .vbool b => if b then "True" else "False"
  | .vint n => toString n
  | v => pyRepr v

/-- The still-truthy values kept by `filter(None, ...)` must all be strings
for `" ".join` to succeed; a truthy non-string raises TypeError. -/
def strsOfJoin : List PyVal → Except PyErr (List String)
  | [] => .ok []
  | .vstr s :: rest => (strsOfJoin rest).map (s :: ·)
  | _ :: _ => .error .typeError

/-- Python `" ".join(filter(None, vs))`. -/
def joinFiltered (vs : List PyVal) : Except PyErr String :=
  match strsOfJoin (vs.filter pyTruthy) with
  | .ok ss => .ok (String.intercalate " " ss)
  | .error e => .error e

/-! ### The 403/404 classification in `BeatportApi._get` -/

/-- The hand-maintained explicit region-lock phrases
(src/beatport_api.py:223-234), matched with word boundaries. -/
def regionPhrases : List String :=
  ["not available in your territory",
   "not available in your region",
   "not available in this territory",
   "not available in this region",
   "territory not allowed",
   "region not allowed",
   "geographic restrictions apply",
   "territorial restrictions apply",
   "this content is not available in your territory",
   "this content is not available in your region"]

/-- The region-lock detection over the lower-cased concatenated error text:
any explicit phrase with word boundaries, and additionally
`\bterritory\s+restricted\b` / `\bregion\s+restricted\b`
(src/beatport_api.py:239-254). -/
def regionLockCheck (lowered : String) : Bool :=
  (regionPhrases.any fun p => wbSearch p lowered) ||
    twoWordSearch "territory" "restricted" lowered ||
    twoWordSearch "region" "restricted" lowered

/-- Python `error_msg = detail if detail else (error if error else (message if
message else dflt))`, formatted into the surrounding f-string. -/
def firstTruthyFmt (detail errv msg : PyVal) (dflt : String) : String :=
  if pyTruthy detail then pyFmt detail
  else if pyTruthy errv then pyFmt errv
  else if pyTruthy msg then pyFmt msg
  else dflt

/-- The 403 classification over a parsed JSON object body
(src/beatport_api.py:202-274).  `error_code` is also read in the source but
only logged.  The result is always a raised error: `BeatportError` with the
classified message, or the TypeError from joining a truthy non-string field
(which `except (ValueError, KeyError)` does not catch). -/
def classify403 (body : Dict) : Except PyErr PyVal :=
  let detail := dGetD body "detail" (.vstr "")
  let errorMessage := dGetD body "error" (.vstr "")
  let message := dGetD body "message" (.vstr "")
  match joinFiltered [detail, errorMessage, message] with
  | .error e => .error e
  | .ok allText =>
    let lowered := strLower allText
    let isRegionLocked :=
      if !lowered.isEmpty then regionLockCheck lowered else false
    if isRegionLocked then
      .error (.beatportError "region locked")
    else if subStr "subscription" lowered then
      .error (.beatportError "subscription required")
    else if subStr "not available" lowered &&
        (subStr "download" lowered || subStr "stream" lowered) then
      .error (.beatportError "content not available")
    else
      .error (.beatportError
        ("API error: " ++
          firstTruthyFmt detail errorMessage message "access denied (HTTP 403)"))

/-- The full 403 branch (src/beatport_api.py:200-282): unparseable JSON is
caught by `except (ValueError, KeyError)` and yields the generic HTTP 403
message; a parseable non-object body makes `.get` raise AttributeError
(uncaught). -/
def handle403 (r : HResp) : Except PyErr PyVal :=
  match respJson r with
  | .error _ =>
    .error (.beatportError ("API error (HTTP 403): " ++
      (if !r.text.isEmpty then r.text.take 200 else "Unable to parse error response")))
  | .ok (.vdict d) => classify403 d
  | .ok _ => .error .attributeError

/-- The 404 branch (src/beatport_api.py:284-309): message from the
detail/error/message precedence with fallback "not found"; unparseable JSON
yields the generic message. -/
def handle404 (r : HResp) : Except PyErr PyVal :=
  match respJson r with
  | .error _ => .error (.beatportError "not found (HTTP 404)")
  | .ok (.vdict d) =>
    .error (.beatportError ("not found: " ++
      firstTruthyFmt (dGetD d "detail" (.vstr ""))
        (dGetD d "error" (.vstr "")) (dGetD d "message" (.vstr "")) "not found"))
  | .ok _ => .error .attributeError

/-- The post-401 tail of `_get` (src/beatport_api.py:199-314): 403 and 404
classification, `ConnectionError` on any other non-2xx status, and the
parsed body on success. -/
def handleResponse (r : HResp) : Except PyErr PyVal :=
  if r.status = 403 then handle403 r
  else if r.status = 404 then handle404 r
  else if r.status ≠ 200 ∧ r.status ≠ 201 ∧ r.status ≠ 202 then
    .error (.connectionError r.text)
  else respJson r

/-! ### Anonymous token acquisition (`BeatportApi.get_anonymous_token`) -/

mutual

/-- The recursive `find_token` search (src/beatport_api.py:42-53): a dict
containing an `access_token` key is returned as-is; otherwise the dict's
values, or a list's elements, are searched in order, a truthy recursive
result (`if res: return res`) being returned immediately; scalars yield
`None`. -/
def findToken : PyVal → PyVal
  | .vdict d => if keyIn "access_token" d then .vdict d else findTokenItems d
  | .vlist xs => findTokenList xs
  | _ => .vnone

/-- Search `find_token` over a dict's values in insertion order. -/
def findTokenItems : List (String × PyVal) → PyVal
  | [] => .vnone
  | (_, v) :: rest =>
    let r := findToken v
    if pyTruthy r then r else findTokenItems rest

/-- Search `find_token` over a list's elements in order. -/
def findTokenList : List PyVal → PyVal
  | [] => .vnone
  | v :: rest =>
    let r := findToken v
    if pyTruthy r then r else findTokenList rest

end

mutual

/-- Whether the JSON structure contains, anywhere, an object with an
`access_token` field (the success condition of the recursive search). -/
def hasTokenObj : PyVal → Bool
  | .vdict d => keyIn "access_token" d || hasTokenItems d
  | .vlist xs => hasTokenList xs
  | _ => false

/-- Predicate `hasTokenObj` over a dict's values. -/
def hasTokenItems : List (String × PyVal) → Bool
  | [] => false
  | (_, v) :: rest => hasTokenObj v || hasTokenItems rest

/-- Predicate `hasTokenObj` over a list's elements. -/
def hasTokenList : List PyVal → Bool
  | [] => false
  | v :: rest => hasTokenObj v || hasTokenList rest

end

/-- The Beatport landing page as observed by `get_anonymous_token`: the HTTP
status of `GET https://www.beatport.com/`, and `blob` standing for the
library layer `json.loads(re.search(r'<script id="__NEXT_DATA__"
...>(.*?)</script>', r.text).group(1))` — `none` when the script tag is
missing from the page, `some data` for its parsed JSON content. -/
structure HomeResp where
  status : Int
  blob : Option PyVal

/-- Embedding of `BeatportApi.get_anonymous_token` (src/beatport_api.py:27-62): scrape the
landing page, search the embedded blob for the first object carrying an
`access_token`, then set `access_token`, clear `refresh_token`, and set
`expires` to now plus the server-supplied `expires_in` (default 3600).  The
session mutations are sequenced as in the source, so a non-integer
`expires_in` raises TypeError (from `timedelta`) after the tokens were
already set. -/
def get_anonymous_token (home : HomeResp) (now : Int) (st : Session) :
    Except PyErr PyVal × Session :=
  if home.status ≠ 200 then
    (.error (.connectionError
      ("Failed to get Beatport homepage (" ++ toString home.status ++ ")")), st)
  else
    match home.blob with
    | none =>
      (.error (.beatportError "Could not find __NEXT_DATA__ on Beatport homepage"), st)
    | some data =>
      match findToken data with
      | .vdict d =>
        if !keyIn "access_token" d then
          (.error (.beatportError
            "Could not find anonymous access token on Beatport homepage"), st)
        else
          match dLookup d "access_token" with
          | some tok =>
            let st1 : Session :=
              { st with access_token := tok, refresh_token := .vnone }
            match dGetD d "expires_in" (.vint 3600) with
            | .vint n => (.ok .vnone, { st1 with expires := .vint (now + n) })
            | .vbool b =>
              (.ok .vnone, { st1 with expires := .vint (now + if b then 1 else 0) })
            | _ => (.error .typeError, st1)
          | none => (.error (.keyError "access_token"), st)
      | _ =>
        -- `find_token` only ever returns a dict or `None`; `not token_data`
        -- is then true exactly in the `None` case.
        (.error (.beatportError
          "Could not find anonymous access token on Beatport homepage"), st)

/-! ### The authenticated request dispatcher (`BeatportApi._get`) -/

/-- The environment of one `_get` call: `gets n` is the response to the
(n+1)-th GET of the endpoint (the dispatcher performs at most two),
`refreshResp` the response to the token-refresh POST should `refresh` run,
`home` the landing page should `get_anonymous_token` run, and `now` the
clock. -/
structure Env where
  gets : Nat → HResp
  refreshResp : HResp
  home : HomeResp
  now : Int

/-- Observable outcome of a `_get` call: the returned body or raised
exception, the resulting session state, and how many GETs of the endpoint,
refresh calls and anonymous acquisitions were performed. -/
structure GetOut where
  result : Except PyErr PyVal
  session : Session
  getCalls : Nat
  refreshCalls : Nat
  anonCalls : Nat

/-- The single retry after the 401 recovery (src/beatport_api.py:193-197):
a second 401 raises `ValueError` (the Unauthorized outcome) and is never
retried again; anything else flows into the normal status handling. -/
def retryRequest (env : Env) (st : Session) (refreshes anons : Nat) : GetOut :=
  let r := env.gets 1
  if r.status = 401 then
    { result := .error (.valueError ("Authentication failed after retry: " ++ r.text)),
      session := st, getCalls := 2, refreshCalls := refreshes, anonCalls := anons }
  else
    { result := handleResponse r, session := st, getCalls := 2,
      refreshCalls := refreshes, anonCalls := anons }

/-- Embedding of `BeatportApi._get` (src/beatport_api.py:176-314).  On a 401: with no
stored refresh token, re-run anonymous acquisition, else run `refresh`; a
truthy refresh return value (its failure signal) raises
`ValueError("Refresh failed: ...")` with no retry; otherwise the original
GET is retried exactly once. -/
def dispatchGet (env : Env) (st : Session) : GetOut :=
  let r := env.gets 0
  if r.status = 401 then
    if !pyTruthy st.refresh_token then
      match get_anonymous_token env.home env.now st with
      | (.error e, st') =>
        { result := .error e, session := st', getCalls := 1,
          refreshCalls := 0, anonCalls := 1 }
      | (.ok _, st') => retryRequest env st' 0 1
    else
      match refresh env.refreshResp env.now st with
      | (.error e, st') =>
        { result := .error e, session := st', getCalls := 1,
          refreshCalls := 1, anonCalls := 0 }
      | (.ok errv, st') =>
        if pyTruthy errv then
          { result := .error (.valueError ("Refresh failed: " ++ r.text)),
            session := st', getCalls := 1, refreshCalls := 1, anonCalls := 0 }
        else retryRequest env st' 1 0
  else
    { result := handleResponse r, session := st, getCalls := 1,
      refreshCalls := 0, anonCalls := 0 }

/-! ### Credential login (`BeatportApi.auth`) -/

/-- The four HTTP exchanges of one `auth` call: the first authorization-code
GET, the login POST, the second authorization-code GET, and the token
exchange POST.  The referer built from the first redirect's `Location`
header only decorates outgoing request headers and is not otherwise
observable. -/
structure AuthEnv where
  authorize1 : HResp
  login : HResp
  authorize2 : HResp
  token : HResp

/-- The missing-credentials message raised by `auth`
(src/beatport_api.py:107-111). -/
def missingCredsMsg : String :=
  "Beatport credentials are missing in settings.json. " ++
  "Please fill in: username, password. " ++
  "Use the OrpheusDL GUI Settings tab (Beatport) or edit config/settings.json directly."

/-- Python `any("blank" in str(msg).lower() for msg in errors)`: iterating a
non-iterable raises TypeError. -/
def anyBlank (errors : PyVal) : Except PyErr Bool :=
  match pyIterate errors with
  | .error e => .error e
  | .ok xs => .ok (xs.any fun m => subStr "blank" (strLower (pyFmt m)))

/-- The blank-credential detection inside `auth`'s non-200 login branch
(src/beatport_api.py:98-113): a parse failure of `r.json()` is caught by
`except (ValueError, KeyError)` and falls through; a dict body carrying
both `username` and `password` keys whose error lists both mention "blank"
raises the `BeatportError` configuration message (not caught by that
`except`); `any(...) and any(...)` short-circuits, so the password check
only runs when the username check succeeded. -/
def loginBlankCheck (r : HResp) : Except PyErr Unit :=
  match respJson r with
  | .error _ => .ok ()
  | .ok (.vdict d) =>
    if keyIn "username" d && keyIn "password" d then
      match anyBlank (dGetD d "username" (.vlist [])) with
      | .error e => .error e
      | .ok false => .ok ()
      | .ok true =>
        match anyBlank (dGetD d "password" (.vlist [])) with
        | .error e => .error e
        | .ok false => .ok ()
        | .ok true => .error (.beatportError missingCredsMsg)
    else .ok ()
  | .ok _ => .ok ()

/-- Rest of the input after the first occurrence of `pat`, if any. -/
def afterFirstOccur (pat : List Char) : List Char → Option (List Char)
  | [] => none
  | t@(_ :: t') =>
    if matchesAt pat t then some (t.drop pat.length) else afterFirstOccur pat t'

/-- The input up to (excluding) the next occurrence of `pat`. -/
def takeUntilOccur (pat : List Char) : List Char → List Char
  | [] => []
  | t@(c :: t') =>
    if matchesAt pat t then [] else c :: takeUntilOccur pat t'

/-- Python `s.split(pat)[1]`: the text between the first and second
occurrence of `pat` (IndexError when `pat` does not occur). -/
def splitSecond (pat s : String) : Except PyErr String :=
  match afterFirstOccur pat.data s.data with
  | none => .error .indexError
  | some rest => .ok (String.mk (takeUntilOccur pat.data rest))

/-- Embedding of `BeatportApi.auth` (src/beatport_api.py:72-148): authorize (expect 302),
login (non-200: blank-credential check, else `ConnectionError(r.text)`),
authorize again (expect 302, extract the `code` query parameter), exchange
the code, and store the returned tokens; returns the token response body. -/
def auth (env : AuthEnv) (now : Int) (st : Session) :
    Except PyErr PyVal × Session :=
  if env.authorize1.status ≠ 302 then
    (.error (.connectionError env.authorize1.text), st)
  else
    let r := env.login
    if r.status ≠ 200 then
      match loginBlankCheck r with
      | .error e => (.error e, st)
      | .ok _ => (.error (.connectionError r.text), st)
    else if env.authorize2.status ≠ 302 then
      (.error (.connectionError env.authorize2.text), st)
    else
      match splitSecond "code=" env.authorize2.location with
      | .error e => (.error e, st)
      | .ok _code =>
        if env.token.status ≠ 200 then
          (.error (.connectionError env.token.text), st)
        else
          match respJson env.token with
          | .error e => (.error e, st)
          | .ok b =>
            match pyIndex b "access_token" with
            | .error e => (.error e, st)
            | .ok tok =>
              let st1 : Session := { st with access_token := tok }
              match pyIndex b "refresh_token" with
              | .error e => (.error e, st1)
              | .ok rtok =>
                let st2 : Session := { st1 with refresh_token := rtok }
                match pyIndex b "expires_in" with
                | .error e => (.error e, st2)
                | .ok (.vint n) => (.ok b, { st2 with expires := .vint (now + n) })
                | .ok (.vbool bb) =>
                  (.ok b, { st2 with expires := .vint (now + if bb then 1 else 0) })
                | .ok _ => (.error .typeError, st2)

/-! ### Pagination aggregators (src/interface.py) -/

/-- An iterable obtained from a truthy value is nonempty. -/
theorem pyIterate_length_pos (v : PyVal) (elems : List PyVal)
    (ht : pyTruthy v = true) (hi : pyIterate v = .ok elems) : 0 < elems.length := by
  cases v with
  | vnone => simp [pyIterate] at hi
  | vbool b => simp [pyIterate] at hi
  | vint n => simp [pyIterate] at hi
  | vstr s =>
    simp only [pyIterate, Except.ok.injEq] at hi
    have hne : s ≠ "" := by
      intro h; subst h; simp only [pyTruthy] at ht
      exact absurd ht (by decide)
    have hdata : s.data ≠ [] := fun h => hne (by cases s; simp_all)
    rw [← hi, List.length_map]
    exact List.length_pos.mpr hdata
  | vlist xs =>
    simp only [pyIterate, Except.ok.injEq] at hi
    subst hi
    simp only [pyTruthy, Bool.not_eq_true'] at ht
    exact List.length_pos.mpr (by simpa using ht)
  | vdict d =>
    simp only [pyIterate, Except.ok.injEq] at hi
    simp only [pyTruthy, Bool.not_eq_true'] at ht
    rw [← hi, List.length_map]
    exact List.length_pos.mpr (by simpa using ht)

/-- The `while` loop of `get_playlist_info` (src/interface.py:407-420):
while fewer items than the declared total were accumulated (and the total is
positive), fetch the next page; a page that is falsy, lacks `results`, or
whose `results` is falsy breaks with a logged warning; otherwise its items
are appended.  Returns the accumulated items and whether the early-stop
warning was reported. -/
def playlistLoop (fetch : Nat → Dict) (total : Int) (page : Nat)
    (acc : List PyVal) : Except PyErr (List PyVal × Bool) :=
  if hg : (acc.length : Int) < total ∧ 0 < total then
    let d := fetch (page + 1)
    if hc : (!d.isEmpty && keyIn "results" d) = true ∧
        pyTruthy (dGet d "results") = true then
      match hi : pyIterate (dGet d "results") with
      | .error e => .error e
      | .ok elems => playlistLoop fetch total (page + 1) (acc ++ elems)
    else
      .ok (acc, true)
  else
    .ok (acc, false)
termination_by (total - acc.length).toNat
decreasing_by
  have hpos := pyIterate_length_pos _ _ hc.2 hi
  simp only [List.length_append]
  omega

/-- The track aggregation of `get_playlist_info` (src/interface.py:388-420):
page 1 is fetched eagerly, its `results` appended when present, the declared
total read from `count` (default 0), and the loop run from page 2 on.
Comparing `len(...)` against a non-numeric `count` raises TypeError. -/
def collectPlaylistTracks (fetch : Nat → Dict) :
    Except PyErr (List PyVal × Bool) :=
  let d1 := fetch 1
  match (if !d1.isEmpty && keyIn "results" d1
         then pyIterate (dGet d1 "results") else .ok []) with
  | .error e => .error e
  | .ok acc0 =>
    match (if !d1.isEmpty then dGetD d1 "count" (.vint 0) else .vint 0) with
    | .vint total => playlistLoop fetch total 1 acc0
    | .vbool b => playlistLoop fetch (if b then 1 else 0) 1 acc0
    | _ => .error .typeError

/-- A Python value used as the left operand of `x + 99` must be a number
(bool counts as an int). -/
def pyAsInt : PyVal → Except PyErr Int
  | .vint n => .ok n
  | .vbool b => .ok (if b then 1 else 0)
  | _ => .error .typeError

/-- Python `range(2, num_pages + 1)` as page numbers. -/
def pageRange (numPages : Int) : List Nat :=
  (List.range (numPages - 1).toNat).map (fun i => i + 2)

/-- The fixed-range loop of `get_album_info` (src/interface.py:652-654):
`tracks += fetch(page).get("results")` — with no `or []` guard, so a page
without a `results` list raises TypeError, and an empty page does not stop
the loop. -/
def albumLoop (fetch : Nat → Dict) : List Nat → PyVal → Except PyErr PyVal
  | [], tracks => .ok tracks
  | p :: rest, tracks =>
    match pyIAdd tracks (dGet (fetch p) "results") with
    | .error e => .error e
    | .ok tracks' => albumLoop fetch rest tracks'

/-- The track aggregation of `get_album_info` (src/interface.py:648-654):
`tracks = d1.get("results")`, `total = d1.get("count")`,
`num_pages = max(1, (total + 99) // 100)`, then pages 2..num_pages are
appended unconditionally. -/
def collectAlbumTracks (fetch : Nat → Dict) : Except PyErr PyVal :=
  let d1 := fetch 1
  let tracks := dGet d1 "results"
  match pyAsInt (dGet d1 "count") with
  | .error e => .error e
  | .ok total =>
    let numPages : Int := max 1 ((total + 99).fdiv 100)
    albumLoop fetch (pageRange numPages) tracks

/-- The fixed-range loop of `get_artist_info` (src/interface.py:510-512):
`artist_tracks += fetch(page).get("results") or []` — missing or falsy
`results` contributes nothing and the loop continues. -/
def artistLoop (fetch : Nat → Dict) : List Nat → PyVal → Except PyErr PyVal
  | [], tracks => .ok tracks
  | p :: rest, tracks =>
    match pyIAdd tracks (pyOr (dGet (fetch p) "results") (.vlist [])) with
    | .error e => .error e
    | .ok tracks' => artistLoop fetch rest tracks'

/-- The track aggregation of `get_artist_info` (src/interface.py:506-512):
`artist_tracks = d1.get("results") or []`, `total = d1.get("count") or 0`,
`num_pages = max(1, (total + 99) // 100)`, then pages 2..num_pages. -/
def collectArtistTracks (fetch : Nat → Dict) : Except PyErr PyVal :=
  let d1 := fetch 1
  let tracks := pyOr (dGet d1 "results") (.vlist [])
  match pyAsInt (pyOr (dGet d1 "count") (.vint 0)) with
  | .error e => .error e
  | .ok total =>
    let numPages : Int := max 1 ((total + 99).fdiv 100)
    artistLoop fetch (pageRange numPages) tracks

/-! ### Artwork URL templating (`ModuleInterface._generate_artwork_url`) -/

/-- Literal `\x7b` as a character. -/
def openBrace : Char := Char.ofNat 123

/-- Literal `\x7d` as a character. -/
def closeBrace : Char := Char.ofNat 125

/-- Number of leading decimal digits. -/
def countDigits : List Char → Nat
  | [] => 0
  | c :: t => if c.isDigit then countDigits t + 1 else 0

/-- Model of `re.match` of `\d{3,4}x\d{3,4}` at the head of `t`: the length of the
(greedy, backtracking) match, if any.  The first `\d{3,4}` tries four digits
then three, each followed by a literal `x`; the second takes four digits
when available, else three. -/
def matchResAt (t : List Char) : Option Nat :=
  let k? : Option Nat :=
    if 4 ≤ countDigits t ∧ t[4]? = some 'x' then some 4
    else if 3 ≤ countDigits t ∧ t[3]? = some 'x' then some 3
    else none
  match k? with
  | none => none
  | some k =>
    let rest := t.drop (k + 1)
    if 4 ≤ countDigits rest then some (k + 1 + 4)
    else if 3 ≤ countDigits rest then some (k + 1 + 3)
    else none

/-- A resolution match is at least one character long (it is in fact at
least seven). -/
theorem matchResAt_pos (t : List Char) (n : Nat) (h : matchResAt t = some n) :
    0 < n := by
  unfold matchResAt at h
  repeat' split at h
  all_goals dsimp only at h
  all_goals repeat' split at h
  all_goals first
    | (injection h with h; omega)
    | exact absurd h (by simp)

/-- The `"\x7bw\x7dx\x7bh\x7d"` replacement text of `re.sub`. -/
def whTemplate : List Char :=
  [openBrace, 'w', closeBrace, 'x', openBrace, 'h', closeBrace]

/-- Model of `re.sub(r"\d{3,4}x\d{3,4}", "\x7bw\x7dx\x7bh\x7d", t)`: leftmost
non-overlapping matches replaced, scanning resumes after each match. -/
def resSub : List Char → List Char
  | [] => []
  | c :: t =>
    match hm : matchResAt (c :: t) with
    | some n => whTemplate ++ resSub ((c :: t).drop n)
    | none => c :: resSub t
termination_by t => t.length
decreasing_by
  all_goals try have hp := matchResAt_pos _ _ hm
  all_goals simp only [List.length_drop, List.length_cons]
  all_goals omega

/-- Field name of a format replacement: the characters before the first
`\x7d`, and the rest after it. -/
def fieldSplit : List Char → Option (List Char × List Char)
  | [] => none
  | c :: t =>
    if c = closeBrace then some ([], t)
    else
      match fieldSplit t with
      | some (name, rest) => some (c :: name, rest)
      | none => none

/-- Splitting `fieldSplit` consumes at least the closing brace. -/
theorem fieldSplit_length (s : List Char) (name rest : List Char)
    (h : fieldSplit s = some (name, rest)) : rest.length < s.length := by
  induction s generalizing name rest with
  | nil => simp [fieldSplit] at h
  | cons c t ih =>
    unfold fieldSplit at h
    split at h
    · simp only [Option.some.injEq, Prod.mk.injEq] at h
      obtain ⟨-, h2⟩ := h
      subst h2
      simp only [List.length_cons]
      omega
    · split at h
      · rename_i name' rest' heq
        simp only [Option.some.injEq, Prod.mk.injEq] at h
        obtain ⟨-, h2⟩ := h
        subst h2
        have := ih name' rest' heq
        simp only [List.length_cons]
        omega
      · simp at h

/-- Python `s.format(w=size, h=size)` (src/interface.py:224): doubled braces become
literal braces, `\x7bw\x7d` and `\x7bh\x7d` are replaced by `str(size)`,
other field names raise KeyError (an empty field raises IndexError under
keyword-only arguments), and unbalanced braces raise ValueError.  Format
specs (`:`/`!` suffixes) do not occur in the module's URLs and are treated
as part of the field name. -/
def pyFormatWH (s : List Char) (size : Int) : Except PyErr (List Char) :=
  match s with
  | [] => .ok []
  | c :: t =>
    if c = openBrace then
      match ht : t with
      | [] => .error (.valueError "Single (opening brace) encountered in format string")
      | d :: t' =>
        if d = closeBrace then .error .indexError
        else if d = openBrace then
          match pyFormatWH t' size with
          | .ok out => .ok (openBrace :: out)
          | .error e => .error e
        else
          match hf : fieldSplit (d :: t') with
          | none => .error (.valueError "Single (opening brace) encountered in format string")
          | some (name, rest) =>
            if name = ['w'] ∨ name = ['h'] then
              match pyFormatWH rest size with
              | .ok out => .ok ((toString size).data ++ out)
              | .error e => .error e
            else .error (.keyError (String.mk name))
    else if c = closeBrace then
      match ht : t with
      | d :: t' =>
        if d = closeBrace then
          match pyFormatWH t' size with
          | .ok out => .ok (closeBrace :: out)
          | .error e => .error e
        else .error (.valueError "Single (closing brace) encountered in format string")
      | [] => .error (.valueError "Single (closing brace) encountered in format string")
    else
      match pyFormatWH t size with
      | .ok out => .ok (c :: out)
      | .error e => .error e
termination_by s.length
decreasing_by
  all_goals try have hfl := fieldSplit_length _ _ _ hf
  all_goals try subst ht
  all_goals simp only [List.length_cons] at *
  all_goals omega

/-- Embedding of `ModuleInterface._generate_artwork_url` (src/interface.py:210-224): cap
the requested size at `max_size`, replace every hardcoded `\d{3,4}x\d{3,4}`
resolution segment with the dynamic `\x7bw\x7dx\x7bh\x7d` template (when no
segment matches, the substitution leaves the string unchanged, so the
source's `if match:` guard is behaviour-preserving), then format with the
capped size as both width and height. -/
def _generate_artwork_url (cover_url : String) (size max_size : Int) :
    Except PyErr String :=
  let capped := if size > max_size then max_size else size
  match pyFormatWH (resSub cover_url.data) capped with
  | .ok out => .ok (String.mk out)
  | .error e => .error e

/-- No resolution segment matches at a non-digit head. -/
theorem matchResAt_none_of_not_digit (c : Char) (t : List Char)
    (h : c.isDigit = false) : matchResAt (c :: t) = none := by
  unfold matchResAt
  simp [countDigits, h]

/-- A cover URL is well formed when its braces occur only as the complete
dynamic fields `\x7bw\x7d` and `\x7bh\x7d`.  This covers both URL shapes the
module handles: brace-free URLs with hardcoded resolutions, and the braced
`dynamic_uri` template values that `get_track_cover` reads
(src/interface.py:845).  Any other brace pattern makes `str.format` raise,
so no URL is produced from it at all. -/
def dynOk : List Char → Bool
  | [] => true
  | c :: t =>
    if c = openBrace then
      match t with
      | d :: e :: t' => (d == 'w' || d == 'h') && e == closeBrace && dynOk t'
      | _ => false
    else
      !(c == closeBrace) && dynOk t

/-- Modelled from the spec's words, as the refinement target for C10: every
hardcoded 3-4 digit resolution segment, and every dynamic `\x7bw\x7d` /
`\x7bh\x7d` field, is directly replaced by `min(size, 1400)` (the brace
fallback arms are unreachable on well-formed URLs). -/
def specDynamicChars (m : Int) : List Char → List Char
  | [] => []
  | c :: t =>
    match hm : matchResAt (c :: t) with
    | some n =>
      (toString m).data ++ 'x' :: (toString m).data ++
        specDynamicChars m ((c :: t).drop n)
    | none =>
      if c = openBrace then
        match ht : t with
        | _ :: _ :: t' => (toString m).data ++ specDynamicChars m t'
        | _ => c :: specDynamicChars m t
      else
        c :: specDynamicChars m t
termination_by t => t.length
decreasing_by
  all_goals try have hp := matchResAt_pos _ _ hm
  all_goals try subst ht
  all_goals simp only [List.length_drop, List.length_cons]
  all_goals omega

/-- Modelled from the spec's words: the claimed artwork URL with
`min(size, 1400)` substituted for every resolution segment and every
dynamic width/height field. -/
def specDynamicUrl (url : String) (size : Int) : String :=
  String.mk (specDynamicChars (min size 1400) url.data)

/-- Python `.get(k)` as a method call: AttributeError on a non-dict receiver. -/
def pyGetAttr (v : PyVal) (k : String) : Except PyErr PyVal :=
  match v with
  | .vdict d => .ok (dGet d k)
  | _ => .error .attributeError

/-- Embedding of `ModuleInterface.get_track_cover` (src/interface.py:837-849) reduced to
its URL computation: extract `release.image.dynamic_uri` from the track
data (`or {}` guards on the two intermediate levels) and template it with
the requested resolution, capped at 1400.  A missing `dynamic_uri` leaves
`cover_url = None` and `re.search` then raises TypeError. -/
def get_track_cover (track_data : Dict) (resolution : Int) :
    Except PyErr String :=
  match pyGetAttr (pyOr (dGet track_data "release") (.vdict [])) "image" with
  | .error e => .error e
  | .ok img =>
    match pyGetAttr (pyOr img (.vdict [])) "dynamic_uri" with
    | .error e => .error e
    | .ok (.vstr s) => _generate_artwork_url s resolution 1400
    | .ok _ => .error .typeError

/-! ## Claims -/

/-- Core `String.isEmpty` is false exactly on nonempty strings. -/
theorem isEmpty_false_iff (s : String) : (s.isEmpty = false) ↔ s ≠ "" := by
  rw [Bool.eq_false_iff]
  constructor
  · intro h hs
    exact h (by rw [hs]; decide)
  · intro h hi
    exact h ((String.isEmpty_iff s).mp hi)

/-- A nonempty Python string is truthy. -/
theorem pyTruthy_vstr_of_ne (s : String) (h : s ≠ "") :
    pyTruthy (.vstr s) = true := by
  simp only [pyTruthy, Bool.not_eq_true']
  rw [Bool.eq_false_iff]
  intro hi
  exact h ((String.isEmpty_iff s).mp hi)

/-- Claim C9: session state restore and export round-trip — `set_session(s)`
followed by `get_session()` returns exactly the dictionary binding
`access_token`, `refresh_token` and `expires` to `s.get(...)` (absent keys
becoming `None`), and `set_session(get_session())` leaves the session state
unchanged. -/
theorem claim_C9_session_roundtrip (s : Dict) (st : Session) :
    get_session (set_session s) =
      [("access_token", dGet s "access_token"),
       ("refresh_token", dGet s "refresh_token"),
       ("expires", dGet s "expires")] ∧
    set_session (get_session st) = st := by
  constructor
  · rfl
  · cases st
    simp [set_session, get_session, dGet, dGetD, dLookup]

/-- Claim C2: for every stored session state and every refresh response with
status other than 200, `refresh` returns the parsed response body to the
caller as a signal value and the session state after the call is exactly the
state before it (and this holds even when the body cannot be parsed and the
parse error propagates); only a 200 response can touch the three fields. -/
theorem claim_C2_refresh_nonmutation (resp : HResp) (now : Int) (st : Session)
    (hs : resp.status ≠ 200) :
    (∀ b, resp.jsonBody = some b → refresh resp now st = (.ok b, st)) ∧
    (refresh resp now st).2 = st := by
  unfold refresh respJson
  constructor
  · intro b hb
    simp [hs, hb]
  · cases h : resp.jsonBody <;> simp [hs, h]

/-- Witness for C2 at a concrete non-200 `invalid_grant` response. -/
theorem claim_C2_refresh_nonmutation_witness :
    refresh ⟨400, some (.vdict [("error", .vstr "invalid_grant")]), "", ""⟩ 17
        ⟨.vstr "at", .vstr "rt", .vint 99⟩ =
      (.ok (.vdict [("error", .vstr "invalid_grant")]),
       ⟨.vstr "at", .vstr "rt", .vint 99⟩) :=
  (claim_C2_refresh_nonmutation _ 17 _ (by decide)).1 _ rfl

/-- Claim C8: for every HTTP 404 response the dispatcher raises the
`BeatportError` not-found message built from the body's `detail` field, else
the `error` field, else the `message` field (falsy fields are skipped, in
that order), with the generic message when the body is not parseable JSON;
it never raises a `ConnectionError` (transport error) for a 404. -/
theorem claim_C8_notfound_classification (env : Env) (st : Session)
    (h404 : (env.gets 0).status = 404) :
    ((env.gets 0).jsonBody = none →
      (dispatchGet env st).result = .error (.beatportError "not found (HTTP 404)")) ∧
    (∀ d, (env.gets 0).jsonBody = some (.vdict d) →
      (∀ sd, dGetD d "detail" (.vstr "") = .vstr sd → sd ≠ "" →
        (dispatchGet env st).result =
          .error (.beatportError ("not found: " ++ sd))) ∧
      (pyTruthy (dGetD d "detail" (.vstr "")) = false →
        ∀ se, dGetD d "error" (.vstr "") = .vstr se → se ≠ "" →
          (dispatchGet env st).result =
            .error (.beatportError ("not found: " ++ se))) ∧
      (pyTruthy (dGetD d "detail" (.vstr "")) = false →
        pyTruthy (dGetD d "error" (.vstr "")) = false →
        ∀ sm, dGetD d "message" (.vstr "") = .vstr sm → sm ≠ "" →
          (dispatchGet env st).result =
            .error (.beatportError ("not found: " ++ sm))) ∧
      (pyTruthy (dGetD d "detail" (.vstr "")) = false →
        pyTruthy (dGetD d "error" (.vstr "")) = false →
        pyTruthy (dGetD d "message" (.vstr "")) = false →
          (dispatchGet env st).result =
            .error (.beatportError "not found: not found"))) ∧
    (∀ t, (dispatchGet env st).result ≠ .error (.connectionError t)) := by
  have hne : ((env.gets 0).status = 401) = False := by
    simp [h404]
  have hout : (dispatchGet env st).result = handle404 (env.gets 0) := by
    unfold dispatchGet handleResponse
    simp [hne, h404]
  refine ⟨?_, ?_, ?_⟩
  · intro hb
    rw [hout]
    unfold handle404 respJson
    simp [hb]
  · intro d hb
    rw [hout]
    unfold handle404 respJson
    simp only [hb]
    refine ⟨?_, ?_, ?_, ?_⟩
    · intro sd hsd hne'
      simp only [firstTruthyFmt, hsd]
      simp [pyTruthy_vstr_of_ne sd hne', pyFmt]
    · intro hdf se hse hne'
      simp only [firstTruthyFmt, hse, hdf]
      simp [pyTruthy_vstr_of_ne se hne', pyFmt]
    · intro hdf hef sm hsm hne'
      simp only [firstTruthyFmt, hsm, hdf, hef]
      simp [pyTruthy_vstr_of_ne sm hne', pyFmt]
    · intro hdf hef hmf
      simp [firstTruthyFmt, hdf, hef, hmf]
  · intro t
    rw [hout]
    unfold handle404 respJson
    cases h : (env.gets 0).jsonBody with
    | none => simp
    | some b => cases b <;> simp

mutual

/-- When no object with an `access_token` key occurs anywhere in the
structure, the recursive search returns `None`. -/
theorem findToken_none (v : PyVal) (h : hasTokenObj v = false) :
    findToken v = .vnone := by
  cases v with
  | vdict d =>
    unfold hasTokenObj at h
    rcases Bool.or_eq_false_iff.mp h with ⟨h1, h2⟩
    unfold findToken
    simp only [h1, Bool.false_eq_true, if_false]
    exact findTokenItems_none d h2
  | vlist xs =>
    unfold hasTokenObj at h
    unfold findToken
    exact findTokenList_none xs h
  | vnone => rfl
  | vbool b => rfl
  | vint n => rfl
  | vstr s => rfl

/-- Lemma `findToken_none` over dict items. -/
theorem findTokenItems_none (kvs : List (String × PyVal))
    (h : hasTokenItems kvs = false) : findTokenItems kvs = .vnone := by
  cases kvs with
  | nil => rfl
  | cons kv rest =>
    obtain ⟨k, v⟩ := kv
    unfold hasTokenItems at h
    rcases Bool.or_eq_false_iff.mp h with ⟨h1, h2⟩
    unfold findTokenItems
    simp only [findToken_none v h1, pyTruthy, Bool.false_eq_true, if_false]
    exact findTokenItems_none rest h2

/-- Lemma `findToken_none` over list elements. -/
theorem findTokenList_none (xs : List PyVal)
    (h : hasTokenList xs = false) : findTokenList xs = .vnone := by
  cases xs with
  | nil => rfl
  | cons v rest =>
    unfold hasTokenList at h
    rcases Bool.or_eq_false_iff.mp h with ⟨h1, h2⟩
    unfold findTokenList
    simp only [findToken_none v h1, pyTruthy, Bool.false_eq_true, if_false]
    exact findTokenList_none rest h2

end

mutual

/-- When some object with an `access_token` key occurs anywhere in the
structure, the recursive search returns a dict carrying that key. -/
theorem findToken_finds (v : PyVal) (h : hasTokenObj v = true) :
    ∃ d, findToken v = .vdict d ∧ keyIn "access_token" d = true := by
  cases v with
  | vdict kvs =>
    unfold hasTokenObj at h
    unfold findToken
    cases hk : keyIn "access_token" kvs with
    | true => exact ⟨kvs, by simp [hk], hk⟩
    | false =>
      rw [hk] at h
      simp only [Bool.false_or] at h
      simp only [hk, Bool.false_eq_true, if_false]
      exact findTokenItems_finds kvs h
  | vlist xs =>
    unfold hasTokenObj at h
    unfold findToken
    exact findTokenList_finds xs h
  | vnone => simp [hasTokenObj] at h
  | vbool b => simp [hasTokenObj] at h
  | vint n => simp [hasTokenObj] at h
  | vstr s => simp [hasTokenObj] at h

/-- Lemma `findToken_finds` over dict items. -/
theorem findTokenItems_finds (kvs : List (String × PyVal))
    (h : hasTokenItems kvs = true) :
    ∃ d, findTokenItems kvs = .vdict d ∧ keyIn "access_token" d = true := by
  cases kvs with
  | nil => simp [hasTokenItems] at h
  | cons kv rest =>
    obtain ⟨k, v⟩ := kv
    unfold hasTokenItems at h
    unfold findTokenItems
    cases hv : hasTokenObj v with
    | true =>
      obtain ⟨d, hd, hkd⟩ := findToken_finds v hv
      rw [hd]
      have hne : pyTruthy (PyVal.vdict d) = true := by
        cases d with
        | nil => simp [keyIn, dLookup] at hkd
        | cons a l => simp [pyTruthy]
      simp only [hne, if_true]
      exact ⟨d, rfl, hkd⟩
    | false =>
      rw [hv] at h
      simp only [Bool.false_or] at h
      rw [findToken_none v hv]
      simp only [pyTruthy, Bool.false_eq_true, if_false]
      exact findTokenItems_finds rest h

/-- Lemma `findToken_finds` over list elements. -/
theorem findTokenList_finds (xs : List PyVal)
    (h : hasTokenList xs = true) :
    ∃ d, findTokenList xs = .vdict d ∧ keyIn "access_token" d = true := by
  cases xs with
  | nil => simp [hasTokenList] at h
  | cons v rest =>
    unfold hasTokenList at h
    unfold findTokenList
    cases hv : hasTokenObj v with
    | true =>
      obtain ⟨d, hd, hkd⟩ := findToken_finds v hv
      rw [hd]
      have hne : pyTruthy (PyVal.vdict d) = true := by
        cases d with
        | nil => simp [keyIn, dLookup] at hkd
        | cons a l => simp [pyTruthy]
      simp only [hne, if_true]
      exact ⟨d, rfl, hkd⟩
    | false =>
      rw [hv] at h
      simp only [Bool.false_or] at h
      rw [findToken_none v hv]
      simp only [pyTruthy, Bool.false_eq_true, if_false]
      exact findTokenList_finds rest h

end

/-- Claim C6: for every landing page whose embedded JSON blob contains,
anywhere in its object/array structure, an object with an `access_token`
field, anonymous acquisition finds the first such object (the recursive
search succeeds and yields a dict carrying the key), sets the session's
access token to that object's value, sets the refresh token to absent, and
sets expiry to now plus the server-supplied `expires_in` — now plus 3600
when `expires_in` is absent. -/
theorem claim_C6_anonymous_token (home : HomeResp) (now : Int) (st : Session)
    (data : PyVal)
    (hs : home.status = 200) (hb : home.blob = some data)
    (hc : hasTokenObj data = true) :
    ∃ d, findToken data = .vdict d ∧ keyIn "access_token" d = true ∧
      ∀ tok, dLookup d "access_token" = some tok →
        (∀ n, dGetD d "expires_in" (.vint 3600) = .vint n →
          get_anonymous_token home now st =
            (.ok .vnone, ⟨tok, .vnone, .vint (now + n)⟩)) ∧
        (dLookup d "expires_in" = none →
          get_anonymous_token home now st =
            (.ok .vnone, ⟨tok, .vnone, .vint (now + 3600)⟩)) := by
  obtain ⟨d, hd, hk⟩ := findToken_finds data hc
  refine ⟨d, hd, hk, ?_⟩
  intro tok htok
  constructor
  · intro n hn
    unfold get_anonymous_token
    simp [hs, hb, hd, hk, htok, hn]
  · intro habs
    have hn : dGetD d "expires_in" (.vint 3600) = .vint 3600 := by
      unfold dGetD
      rw [habs]
      rfl
    unfold get_anonymous_token
    simp [hs, hb, hd, hk, htok, hn]

/-- The spec's example blob for anonymous acquisition. -/
def c6Blob : PyVal :=
  .vdict [("a", .vdict [("access_token", .vstr "T"), ("expires_in", .vint 10)])]

/-- Witness for C6: the example page content sets access token "T", clears
the refresh token, and sets expiry to now plus 10 seconds. -/
theorem claim_C6_anonymous_token_witness :
    get_anonymous_token ⟨200, some c6Blob⟩ 100 ⟨.vstr "x", .vstr "y", .vnone⟩ =
      (.ok .vnone, ⟨.vstr "T", .vnone, .vint 110⟩) := by
  obtain ⟨d, hd, hk, hrest⟩ :=
    claim_C6_anonymous_token ⟨200, some c6Blob⟩ 100 ⟨.vstr "x", .vstr "y", .vnone⟩
      c6Blob rfl rfl (by decide)
  have hdv : PyVal.vdict [("access_token", PyVal.vstr "T"), ("expires_in", PyVal.vint 10)]
      = PyVal.vdict d := by
    rw [← hd]
    rfl
  injection hdv with hdd
  subst hdd
  have h10 := (hrest (.vstr "T") rfl).1 10 rfl
  simpa using h10

/-- Claim C7: a login attempt whose HTTP response is non-200 with a JSON
body containing blank-field validation errors on both the username and the
password fields raises the distinct missing-credentials configuration
error (`BeatportError`), not the generic `ConnectionError` transport error
that other non-200 login responses produce. -/
theorem claim_C7_blank_credentials (env : AuthEnv) (now : Int) (st : Session)
    (h1 : env.authorize1.status = 302)
    (hl : env.login.status ≠ 200)
    (d : Dict) (hb : env.login.jsonBody = some (.vdict d))
    (hu : keyIn "username" d = true) (hp : keyIn "password" d = true)
    (hub : anyBlank (dGetD d "username" (.vlist [])) = .ok true)
    (hpb : anyBlank (dGetD d "password" (.vlist [])) = .ok true) :
    (auth env now st).1 = .error (.beatportError missingCredsMsg) ∧
    ∀ t, (auth env now st).1 ≠ .error (.connectionError t) := by
  have hchk : loginBlankCheck env.login = .error (.beatportError missingCredsMsg) := by
    unfold loginBlankCheck respJson
    simp [hb, hu, hp, hub, hpb]
  unfold auth
  simp [h1, hl, hchk]

/-- The login response of the C7 example: both fields flagged blank. -/
def c7Login : HResp :=
  ⟨400, some (.vdict [("username", .vlist [.vstr "blank"]),
                      ("password", .vlist [.vstr "blank"])]), "", ""⟩

/-- Witness for C7 at the concrete blank-field response body. -/
theorem claim_C7_blank_credentials_witness :
    (auth ⟨⟨302, none, "", "loc"⟩, c7Login, ⟨302, none, "", "x?code=y"⟩,
        ⟨200, none, "", ""⟩⟩ 0 ⟨.vnone, .vnone, .vnone⟩).1 =
      .error (.beatportError missingCredsMsg) :=
  (claim_C7_blank_credentials _ 0 _ rfl (by decide)
    [("username", .vlist [.vstr "blank"]), ("password", .vlist [.vstr "blank"])]
    rfl rfl rfl rfl rfl).1

/-- A server page response declaring total `total` and carrying `chunk` as
its results. -/
def mkPage (total : Int) (chunk : List PyVal) : Dict :=
  [("count", .vint total), ("results", .vlist chunk)]

/-- The results field of a `mkPage` response. -/
theorem mkPage_results (total : Int) (chunk : List PyVal) :
    dGet (mkPage total chunk) "results" = .vlist chunk := by
  simp +decide [dGet, dGetD, mkPage, dLookup]

/-- The count field of a `mkPage` response. -/
theorem mkPage_count (total : Int) (chunk : List PyVal) :
    dGetD (mkPage total chunk) "count" (.vint 0) = .vint total := by
  simp +decide [dGetD, mkPage, dLookup]

/-- The count field of a `mkPage` response under a `None` default. -/
theorem mkPage_count_none (total : Int) (chunk : List PyVal) :
    dGet (mkPage total chunk) "count" = .vint total := by
  simp +decide [dGet, dGetD, mkPage, dLookup]

/-- A `mkPage` response is a truthy dict with a results key. -/
theorem mkPage_cond (total : Int) (chunk : List PyVal) :
    (!(mkPage total chunk).isEmpty && keyIn "results" (mkPage total chunk)) = true := by
  simp +decide [mkPage, keyIn, dLookup]

/-- A nonempty Python list is truthy. -/
theorem pyTruthy_vlist_of_ne (xs : List PyVal) (h : xs ≠ []) :
    pyTruthy (.vlist xs) = true := by
  cases xs with
  | nil => exact absurd rfl h
  | cons a l => rfl

/-- Python `x or []` keeps a list operand. -/
theorem pyOr_vlist (c : List PyVal) : pyOr (.vlist c) (.vlist []) = .vlist c := by
  cases c <;> simp [pyOr, pyTruthy]

/-- Python `x or 0` keeps an int operand. -/
theorem pyOr_vint (T : Int) : pyOr (.vint T) (.vint 0) = .vint T := by
  by_cases h : T = 0 <;> simp [pyOr, pyTruthy, h]

/-- With the server returning the chunks of `L` in full pages of `P` (the
last possibly short) and declared total `L.length`, the playlist loop
started at page `j` with the first `j` pages' items accumulated collects
exactly `L`, with no early-stop warning. -/
theorem playlistLoop_collects (L : List PyVal) (P : Nat) (hP : 0 < P)
    (fetch : Nat → Dict)
    (hf : ∀ i, 1 ≤ i → fetch i =
      mkPage (L.length : Int) ((L.drop ((i-1)*P)).take P)) :
    ∀ n j acc, L.length - j * P = n → 1 ≤ j → acc = L.take (j * P) →
      playlistLoop fetch (L.length : Int) j acc = .ok (L, false) := by
  intro n
  induction n using Nat.strong_induction_on with
  | _ n ih =>
    intro j acc hn hj hacc
    by_cases hlt : j * P < L.length
    · have haccl : acc.length = j * P := by
        rw [hacc, List.length_take]
        omega
      have hguard : ((acc.length : Int) < (L.length : Int) ∧
          (0:Int) < (L.length : Int)) := by
        constructor
        · rw [haccl]
          exact_mod_cast hlt
        · exact_mod_cast (show 0 < L.length by omega)
      rw [playlistLoop, dif_pos hguard]
      have hfj := hf (j+1) (by omega)
      simp only [hfj, Nat.add_sub_cancel]
      have hchunk : (L.drop (j * P)).take P ≠ [] := by
        intro hnil
        have := congrArg List.length hnil
        simp [List.length_take, List.length_drop] at this
        omega
      have hcond : ((!(mkPage (L.length : Int) ((L.drop (j*P)).take P)).isEmpty &&
          keyIn "results" (mkPage (L.length : Int) ((L.drop (j*P)).take P))) = true ∧
          pyTruthy (dGet (mkPage (L.length : Int) ((L.drop (j*P)).take P))
            "results") = true) := by
        refine ⟨mkPage_cond _ _, ?_⟩
        rw [mkPage_results]
        exact pyTruthy_vlist_of_ne _ hchunk
      rw [dif_pos hcond]
      have hiter : pyIterate (dGet (mkPage (L.length : Int)
          ((L.drop (j*P)).take P)) "results") = .ok ((L.drop (j*P)).take P) := by
        rw [mkPage_results]
        rfl
      split
      · rename_i e he
        rw [hfj] at he
        simp only [Nat.add_sub_cancel] at he
        rw [hiter] at he
        exact absurd he (by simp)
      · rename_i elems he
        rw [hfj] at he
        simp only [Nat.add_sub_cancel] at he
        rw [hiter] at he
        injection he with he
        subst he
        have hmul : (j+1)*P = j*P + P := by ring
        have hstep : acc ++ (L.drop (j * P)).take P = L.take ((j+1) * P) := by
          rw [hacc, hmul]
          exact (List.take_add L (j*P) P).symm
        rw [hstep]
        exact ih (L.length - (j+1)*P) (by omega) (j+1) _ rfl (by omega) rfl
    · have hacc_eq : acc = L := by
        rw [hacc]
        exact List.take_of_length_le (by omega)
      have hng : ¬((acc.length : Int) < (L.length : Int) ∧
          (0:Int) < (L.length : Int)) := by
        rintro ⟨h1, -⟩
        rw [hacc_eq] at h1
        exact absurd h1 (lt_irrefl _)
      rw [playlistLoop, dif_neg hng, hacc_eq]
/-- Python `range(2, num_pages + 1)` is the contiguous page segment starting at
page 2. -/
theorem pageRange_eq (m : Int) : pageRange m = List.range' 2 (m - 1).toNat := by
  unfold pageRange
  rw [List.range'_eq_map_range]
  exact List.map_congr_left (fun i _ => by omega)

/-- With the server returning the chunks of `L` in pages of 100, the artist
loop over the page segment starting at `j` extends its accumulated prefix to
the prefix covering those pages. -/
theorem artistLoop_collects (L : List PyVal) (fetch : Nat → Dict)
    (hf : ∀ i, 2 ≤ i → fetch i =
      mkPage (L.length : Int) ((L.drop ((i-1)*100)).take 100)) :
    ∀ cnt j, 2 ≤ j →
      artistLoop fetch (List.range' j cnt) (.vlist (L.take ((j-1)*100))) =
        .ok (.vlist (L.take ((j-1+cnt)*100))) := by
  intro cnt
  induction cnt with
  | zero =>
    intro j hj
    simp [artistLoop]
  | succ m ihm =>
    intro j hj
    rw [List.range'_succ]
    unfold artistLoop
    rw [hf j (by omega), mkPage_results, pyOr_vlist]
    have hone : pyIAdd (.vlist (L.take ((j-1)*100)))
        (.vlist ((L.drop ((j-1)*100)).take 100)) =
        .ok (.vlist (L.take ((j-1)*100) ++ (L.drop ((j-1)*100)).take 100)) := rfl
    rw [hone]
    have hstep : L.take ((j-1)*100) ++ (L.drop ((j-1)*100)).take 100 =
        L.take (j*100) := by
      have hm100 : j*100 = (j-1)*100 + 100 := by omega
      rw [hm100]
      exact (List.take_add _ _ _).symm
    rw [hstep]
    have := ihm (j+1) (by omega)
    simp only [Nat.add_sub_cancel] at this
    have harith : (j - 1 + (m + 1)) * 100 = (j + m) * 100 := by omega
    rw [harith]
    exact this

/-- The playlist/chart aggregation over full pages of any size `P` (the
last page possibly short) collects exactly the declared list, in page
order, with no early-stop warning. -/
theorem collectPlaylistTracks_full (L : List PyVal) (P : Nat) (hP : 0 < P)
    (fetch : Nat → Dict)
    (hf : ∀ i, 1 ≤ i → fetch i =
      mkPage (L.length : Int) ((L.drop ((i-1)*P)).take P)) :
    collectPlaylistTracks fetch = .ok (L, false) := by
  have hf1 := hf 1 (by omega)
  have h0 : ((1:Nat)-1)*P = 0 := by omega
  rw [h0, List.drop_zero] at hf1
  have e1 : (if !(mkPage (L.length : Int) (L.take P)).isEmpty &&
      keyIn "results" (mkPage (L.length : Int) (L.take P)) then
      pyIterate (dGet (mkPage (L.length : Int) (L.take P)) "results")
      else .ok []) = .ok (L.take P) := by
    rw [mkPage_cond, mkPage_results]
    rfl
  have e2 : (if !(mkPage (L.length : Int) (L.take P)).isEmpty then
      dGetD (mkPage (L.length : Int) (L.take P)) "count" (.vint 0)
      else .vint 0) = .vint (L.length : Int) := by
    rw [mkPage_count]
    rfl
  simp only [collectPlaylistTracks, hf1, e1, e2]
  have := playlistLoop_collects L P hP fetch hf (L.length - 1 * P) 1 (L.take P)
    rfl (by omega) (by rw [one_mul])
  exact this

/-- The artist aggregation (fixed page size 100, `ceil(total/100)` pages)
collects exactly the declared list, in page order. -/
theorem collectArtistTracks_full (L : List PyVal) (fetch : Nat → Dict)
    (hf : ∀ i, 1 ≤ i → fetch i =
      mkPage (L.length : Int) ((L.drop ((i-1)*100)).take 100)) :
    collectArtistTracks fetch = .ok (.vlist L) := by
  have hf1 := hf 1 (by omega)
  have h0 : ((1:Nat)-1)*100 = 0 := by omega
  rw [h0, List.drop_zero] at hf1
  have hfd : ((L.length : Int) + 99).fdiv 100 = ((L.length : Int) + 99) / 100 :=
    Int.fdiv_eq_ediv _ (by norm_num)
  simp only [collectArtistTracks, hf1, mkPage_results, pyOr_vlist,
    mkPage_count_none, pyOr_vint]
  have hasint : pyAsInt (.vint (L.length : Int)) = .ok (L.length : Int) := rfl
  rw [hasint]
  simp only [hfd]
  rw [pageRange_eq]
  have hloop := artistLoop_collects L fetch (fun i hi => hf i (by omega))
    ((max 1 (((L.length : Int) + 99) / 100) - 1).toNat) 2 (by omega)
  have h100 : ((2:Nat)-1)*100 = 100 := by omega
  have htake : L.take (((2:Nat)-1)*100) = L.take 100 := by rw [h100]
  rw [htake] at hloop
  have hcover : L.length ≤
      ((2:Nat) - 1 + (max 1 (((L.length : Int) + 99) / 100) - 1).toNat) * 100 := by
    omega
  rw [List.take_of_length_le hcover] at hloop
  -- the loop starts from the page-1 chunk `L.take 100`
  exact hloop

/-- Claim C5: for every declared total count T (the length of the item list
L) and page size P, when every fetched page returns a full page of P items
except possibly the last, the playlist/chart aggregation yields exactly the
T items of L appended in page order (and no early-stop warning), and the
artist aggregation (its page size fixed at 100 with its ceil(T/100) page
range) yields exactly L as well. -/
theorem claim_C5_idempotent_aggregation (L : List PyVal) (P : Nat)
    (hP : 0 < P) (fetch fetchA : Nat → Dict)
    (hf : ∀ i, 1 ≤ i → fetch i =
      mkPage (L.length : Int) ((L.drop ((i-1)*P)).take P))
    (hfA : ∀ i, 1 ≤ i → fetchA i =
      mkPage (L.length : Int) ((L.drop ((i-1)*100)).take 100)) :
    collectPlaylistTracks fetch = .ok (L, false) ∧
    collectArtistTracks fetchA = .ok (.vlist L) :=
  ⟨collectPlaylistTracks_full L P hP fetch hf,
   collectArtistTracks_full L fetchA hfA⟩

/-- The five items of the C5 witness. -/
def c5L : List PyVal := [.vint 0, .vint 1, .vint 2, .vint 3, .vint 4]

/-- Witness for C5: five items served in full pages of two (playlist) and in
one page of up to one hundred (artist) aggregate to exactly those five
items. -/
theorem claim_C5_idempotent_aggregation_witness :
    collectPlaylistTracks
        (fun i => mkPage 5 ((c5L.drop ((i-1)*2)).take 2)) = .ok (c5L, false) ∧
    collectArtistTracks
        (fun i => mkPage 5 ((c5L.drop ((i-1)*100)).take 100)) = .ok (.vlist c5L) :=
  claim_C5_idempotent_aggregation c5L 2 (by omega) _ _
    (fun i _ => rfl) (fun i _ => rfl)

/-- A dict without the key yields `None` from `.get`. -/
theorem dGet_of_not_keyIn (d : Dict) (k : String) (h : keyIn k d = false) :
    dGet d k = .vnone := by
  unfold dGet dGetD
  unfold keyIn at h
  cases hl : dLookup d k with
  | none => rfl
  | some v => rw [hl] at h; exact absurd h (by simp)

/-- With pages 1..k-1 full (chunks of `L`) and the loop's continue condition
failing at page `k` while the declared total still wants more, the playlist
loop started at page `j ≤ k-1` halts at page `k` with exactly the first
`(k-1)*P` items and the warning flag set. -/
theorem playlistLoop_stops (L : List PyVal) (P : Nat) (hP : 0 < P)
    (T : Int) (k : Nat) (fetch : Nat → Dict) (hk : 2 ≤ k)
    (hfull : ∀ i, 1 ≤ i → i < k →
      fetch i = mkPage T ((L.drop ((i-1)*P)).take P))
    (hlen : (k-1) * P ≤ L.length)
    (hT : (((k-1) * P : Nat) : Int) < T)
    (hstop : ¬((!(fetch k).isEmpty && keyIn "results" (fetch k)) = true ∧
      pyTruthy (dGet (fetch k) "results") = true)) :
    ∀ n j acc, (k - 1) - j = n → 1 ≤ j → j ≤ k - 1 → acc = L.take (j * P) →
      playlistLoop fetch T j acc = .ok (L.take ((k-1) * P), true) := by
  intro n
  induction n using Nat.strong_induction_on with
  | _ n ih =>
    intro j acc hn hj hjk hacc
    have hjp : j * P ≤ (k-1) * P := Nat.mul_le_mul_right P hjk
    have haccl : acc.length = j * P := by
      rw [hacc, List.length_take]
      omega
    have hguard : ((acc.length : Int) < T ∧ (0:Int) < T) := by
      have hc1 : ((j*P : Nat) : Int) ≤ (((k-1)*P : Nat) : Int) := by
        exact_mod_cast hjp
      have hc2 : (0:Int) ≤ (((k-1)*P : Nat) : Int) := by positivity
      constructor
      · rw [haccl]
        omega
      · omega
    rw [playlistLoop, dif_pos hguard]
    by_cases hjlast : j = k - 1
    · have hj1 : j + 1 = k := by omega
      rw [hj1, dif_neg hstop, hacc, hjlast]
    · have hfj := hfull (j+1) (by omega) (by omega)
      have hmul : (j+1)*P = j*P + P := by ring
      have hjp2 : (j+1) * P ≤ (k-1) * P := Nat.mul_le_mul_right P (by omega)
      have hchunk : (L.drop (j * P)).take P ≠ [] := by
        intro hnil
        have := congrArg List.length hnil
        simp [List.length_take, List.length_drop] at this
        omega
      have hcond : ((!(fetch (j+1)).isEmpty && keyIn "results" (fetch (j+1))) = true ∧
          pyTruthy (dGet (fetch (j+1)) "results") = true) := by
        rw [hfj]
        simp only [Nat.add_sub_cancel]
        refine ⟨mkPage_cond _ _, ?_⟩
        rw [mkPage_results]
        exact pyTruthy_vlist_of_ne _ hchunk
      rw [dif_pos hcond]
      have hiter : pyIterate (dGet (mkPage T ((L.drop (j*P)).take P)) "results") =
          .ok ((L.drop (j*P)).take P) := by
        rw [mkPage_results]
        rfl
      split
      · rename_i e he
        rw [hfj] at he
        simp only [Nat.add_sub_cancel] at he
        rw [hiter] at he
        exact absurd he (by simp)
      · rename_i elems he
        rw [hfj] at he
        simp only [Nat.add_sub_cancel] at he
        rw [hiter] at he
        injection he with he
        subst he
        have hstep : acc ++ (L.drop (j * P)).take P = L.take ((j+1) * P) := by
          rw [hacc, hmul]
          exact (List.take_add L (j*P) P).symm
        rw [hstep]
        exact ih ((k-1) - (j+1)) (by omega) (j+1) _ rfl (by omega) (by omega) rfl

/-- The playlist/chart aggregation halts at the first failing page `k ≥ 2`
with exactly the items of the earlier full pages and the warning flag. -/
theorem collectPlaylistTracks_stops (L : List PyVal) (P : Nat) (hP : 0 < P)
    (T : Int) (k : Nat) (fetch : Nat → Dict) (hk : 2 ≤ k)
    (hfull : ∀ i, 1 ≤ i → i < k →
      fetch i = mkPage T ((L.drop ((i-1)*P)).take P))
    (hlen : (k-1) * P ≤ L.length)
    (hT : (((k-1) * P : Nat) : Int) < T)
    (hstop : ¬((!(fetch k).isEmpty && keyIn "results" (fetch k)) = true ∧
      pyTruthy (dGet (fetch k) "results") = true)) :
    collectPlaylistTracks fetch = .ok (L.take ((k-1)*P), true) := by
  have hf1 := hfull 1 (by omega) (by omega)
  have h0 : ((1:Nat)-1)*P = 0 := by omega
  rw [h0, List.drop_zero] at hf1
  have e1 : (if !(mkPage T (L.take P)).isEmpty &&
      keyIn "results" (mkPage T (L.take P)) then
      pyIterate (dGet (mkPage T (L.take P)) "results")
      else .ok []) = .ok (L.take P) := by
    rw [mkPage_cond, mkPage_results]
    rfl
  have e2 : (if !(mkPage T (L.take P)).isEmpty then
      dGetD (mkPage T (L.take P)) "count" (.vint 0)
      else .vint 0) = .vint T := by
    rw [mkPage_count]
    rfl
  simp only [collectPlaylistTracks, hf1, e1, e2]
  have := playlistLoop_stops L P hP T k fetch hk hfull hlen hT hstop
    ((k-1) - 1) 1 (L.take P) rfl (by omega) (by omega) (by rw [one_mul])
  exact this

/-- Claim C4 (amended): the early-stop property holds for the playlist/chart
aggregation at pages `k ≥ 2` — an empty or results-less page `k` with
`k·P < T` halts aggregation with exactly the `(k-1)·P` items of the earlier
full pages and the warning flag, never an exception; the album aggregation
instead walks a fixed `ceil(T/P)` page range and raises TypeError when a
page lacks a results list. -/
theorem claim_C4_early_stop (L : List PyVal) (P : Nat) (hP : 0 < P)
    (T : Int) (k : Nat) (fetch : Nat → Dict) (hk : 2 ≤ k)
    (hfull : ∀ i, 1 ≤ i → i < k →
      fetch i = mkPage T ((L.drop ((i-1)*P)).take P))
    (hlen : (k-1) * P ≤ L.length)
    (hT : (((k-1) * P : Nat) : Int) < T)
    (hstop : dGet (fetch k) "results" = .vlist [] ∨
      keyIn "results" (fetch k) = false) :
    (collectPlaylistTracks fetch = .ok (L.take ((k-1)*P), true) ∧
      (L.take ((k-1)*P)).length = (k-1)*P) ∧
    (∀ (fetchA : Nat → Dict) (xs : List PyVal) (TA : Int),
      dGet (fetchA 1) "results" = .vlist xs →
      dGet (fetchA 1) "count" = .vint TA →
      (2:Int) ≤ (TA + 99).fdiv 100 →
      keyIn "results" (fetchA 2) = false →
      collectAlbumTracks fetchA = .error .typeError) := by
  constructor
  · have hstop' : ¬((!(fetch k).isEmpty && keyIn "results" (fetch k)) = true ∧
        pyTruthy (dGet (fetch k) "results") = true) := by
      rintro ⟨hc1, hc2⟩
      rcases hstop with h | h
      · rw [h] at hc2
        exact absurd hc2 (by decide)
      · rw [Bool.and_eq_true] at hc1
        rw [h] at hc1
        exact absurd hc1.2 (by simp)
    refine ⟨collectPlaylistTracks_stops L P hP T k fetch hk hfull hlen hT hstop', ?_⟩
    rw [List.length_take]
    omega
  · intro fetchA xs TA hx hc hnp hmiss
    have hmiss' : dGet (fetchA 2) "results" = .vnone :=
      dGet_of_not_keyIn _ _ hmiss
    simp only [collectAlbumTracks]
    rw [hx, hc]
    have hasint : pyAsInt (.vint TA) = .ok TA := rfl
    rw [hasint]
    have hrange : pageRange (max 1 ((TA + 99).fdiv 100)) =
        2 :: List.range' 3 ((max 1 ((TA + 99).fdiv 100) - 1).toNat - 1) := by
      rw [pageRange_eq]
      have hcnt : (max 1 ((TA + 99).fdiv 100) - 1).toNat =
          ((max 1 ((TA + 99).fdiv 100) - 1).toNat - 1) + 1 := by omega
      rw [hcnt, List.range'_succ]
      simp
    dsimp only
    rw [hrange]
    unfold albumLoop
    rw [hmiss']
    rfl

/-- Counterexample for C4 as frozen: a declared total of 250 with a full
first page of 100 items and a second page (2·100 < 250) lacking the
`results` field makes the album aggregation raise TypeError instead of
halting with the 100 accumulated items and a warning. -/
theorem claim_C4_early_stop_counterexample :
    collectAlbumTracks (fun i =>
      if i = 1 then mkPage 250 (List.replicate 100 (.vint 0))
      else [("count", .vint 250)]) = .error .typeError := rfl

/-- The C4 witness page server: a full first page of two items then an
empty page, against a declared total of ten. -/
def c4Fetch : Nat → Dict := fun i =>
  if i = 1 then mkPage 10 [.vint 1, .vint 2] else mkPage 10 []

/-- Witness for C4 (amended): the playlist aggregation halts at the empty
page 2 (2·2 < 10) with the two items of page 1 and the warning flag. -/
theorem claim_C4_early_stop_witness :
    collectPlaylistTracks c4Fetch = .ok ([.vint 1, .vint 2], true) :=
  (claim_C4_early_stop [.vint 1, .vint 2, .vint 3] 2 (by omega) 10 2 c4Fetch
    (by omega)
    (fun i h1 h2 => by
      have hi : i = 1 := by omega
      subst hi
      rfl)
    (by decide) (by decide) (Or.inl rfl)).1.1

/-- Formatting steps over an ordinary character. -/
theorem pyFormatWH_char (c : Char) (rest : List Char) (m : Int)
    (h1 : c ≠ openBrace) (h2 : c ≠ closeBrace) :
    pyFormatWH (c :: rest) m =
      match pyFormatWH rest m with
      | .ok out => .ok (c :: out)
      | .error e => .error e := by
  rw [pyFormatWH.eq_def]
  simp [h1, h2]

/-- Formatting the substituted `\x7bw\x7dx\x7bh\x7d` template emits the
size twice around the `x`. -/
theorem pyFormatWH_template (rest : List Char) (m : Int) :
    pyFormatWH (whTemplate ++ rest) m =
      match pyFormatWH rest m with
      | .ok out => .ok ((toString m).data ++ 'x' :: (toString m).data ++ out)
      | .error e => .error e := by
  have hx1 : ('w' : Char) ≠ closeBrace := by decide
  have hx2 : ('w' : Char) ≠ openBrace := by decide
  rw [whTemplate]
  rw [pyFormatWH.eq_def]
  simp +decide [fieldSplit]
  rw [pyFormatWH_char 'x' _ m (by decide) (by decide)]
  rw [pyFormatWH.eq_def]
  simp +decide [fieldSplit]
  cases h : pyFormatWH rest m <;> simp

/-- A well-formed list not starting with an opening brace has a well-formed
tail. -/
theorem dynOk_tail (c : Char) (t : List Char) (h : dynOk (c :: t) = true)
    (hc : c ≠ openBrace) : dynOk t = true := by
  unfold dynOk at h
  rw [if_neg hc] at h
  simp only [Bool.and_eq_true] at h
  exact h.2

/-- A well-formed list never starts with a closing brace. -/
theorem dynOk_head_ne (c : Char) (t : List Char) (h : dynOk (c :: t) = true)
    (hc : c ≠ openBrace) : c ≠ closeBrace := by
  unfold dynOk at h
  rw [if_neg hc] at h
  simp only [Bool.and_eq_true, Bool.not_eq_true'] at h
  intro he
  rw [he] at h
  simp at h

/-- A well-formed list starting with an opening brace continues with a
complete `\x7bw\x7d` or `\x7bh\x7d` field. -/
theorem dynOk_field (t : List Char) (h : dynOk (openBrace :: t) = true) :
    ∃ d t', t = d :: closeBrace :: t' ∧ (d = 'w' ∨ d = 'h') ∧
      dynOk t' = true := by
  unfold dynOk at h
  rw [if_pos rfl] at h
  cases t with
  | nil => simp at h
  | cons d t1 =>
    cases t1 with
    | nil => simp at h
    | cons e t' =>
      simp only [Bool.and_eq_true, Bool.or_eq_true, beq_iff_eq] at h
      exact ⟨d, t', by rw [h.1.2], h.1.1, h.2⟩

/-- Positions below the leading digit count hold digits. -/
theorem drop_head_digit : ∀ (j : Nat) (s : List Char), j < countDigits s →
    ∃ c t2, s.drop j = c :: t2 ∧ c.isDigit = true := by
  intro j
  induction j with
  | zero =>
    intro s hj
    cases s with
    | nil => simp [countDigits] at hj
    | cons c t =>
      unfold countDigits at hj
      by_cases hc : c.isDigit
      · exact ⟨c, t, by simp, hc⟩
      · rw [if_neg hc] at hj
        omega
  | succ j ih =>
    intro s hj
    cases s with
    | nil => simp [countDigits] at hj
    | cons c t =>
      unfold countDigits at hj
      by_cases hc : c.isDigit
      · rw [if_pos hc] at hj
        have := ih t (by omega)
        simpa using this
      · rw [if_neg hc] at hj
        omega

/-- Dropping leading digits preserves well-formedness. -/
theorem dynOk_drop_digits : ∀ (j : Nat) (s : List Char), dynOk s = true →
    j ≤ countDigits s → dynOk (s.drop j) = true := by
  intro j
  induction j with
  | zero =>
    intro s h _
    simpa using h
  | succ j ih =>
    intro s h hj
    obtain ⟨c, t2, hdrop, hdig⟩ := drop_head_digit 0 s (by omega)
    rw [List.drop_zero] at hdrop
    subst hdrop
    have hco : c ≠ openBrace := by
      intro he
      rw [he] at hdig
      exact absurd hdig (by decide)
    have ht := dynOk_tail c t2 h hco
    unfold countDigits at hj
    rw [if_pos hdig] at hj
    have := ih t2 ht (by omega)
    simpa using this

/-- A run of digits, an `x`, and a second digit run can be dropped from a
well-formed URL, leaving it well formed. -/
theorem dynOk_drop_step (s : List Char) (a b : Nat)
    (ha : a ≤ countDigits s) (hx : s[a]? = some 'x')
    (hb : b ≤ countDigits (s.drop (a+1))) (hd : dynOk s = true) :
    dynOk (s.drop (a+1+b)) = true := by
  have h1 : dynOk (s.drop a) = true := dynOk_drop_digits a s hd ha
  obtain ⟨hlen, hget⟩ := List.getElem?_eq_some.mp hx
  have h2 : s.drop a = 'x' :: s.drop (a+1) := by
    rw [List.drop_eq_getElem_cons hlen, hget]
  rw [h2] at h1
  have h3 : dynOk (s.drop (a+1)) = true :=
    dynOk_tail _ _ h1 (by decide)
  have h4 : dynOk ((s.drop (a+1)).drop b) = true :=
    dynOk_drop_digits b _ h3 hb
  rw [List.drop_drop] at h4
  exact h4

/-- Dropping a matched resolution segment preserves well-formedness: the
match consists of digits and one `x` only. -/
theorem dynOk_drop_match (s : List Char) (k : Nat)
    (hm : matchResAt s = some k) (hd : dynOk s = true) :
    dynOk (s.drop k) = true := by
  unfold matchResAt at hm
  by_cases h4 : 4 ≤ countDigits s ∧ s[4]? = some 'x'
  · rw [if_pos h4] at hm
    dsimp only at hm
    by_cases hb4 : 4 ≤ countDigits (s.drop (4+1))
    · rw [if_pos hb4] at hm
      injection hm with hmk
      subst hmk
      exact dynOk_drop_step s 4 4 h4.1 h4.2 hb4 hd
    · rw [if_neg hb4] at hm
      by_cases hb3 : 3 ≤ countDigits (s.drop (4+1))
      · rw [if_pos hb3] at hm
        injection hm with hmk
        subst hmk
        exact dynOk_drop_step s 4 3 h4.1 h4.2 hb3 hd
      · rw [if_neg hb3] at hm
        exact absurd hm (by simp)
  · rw [if_neg h4] at hm
    by_cases h3 : 3 ≤ countDigits s ∧ s[3]? = some 'x'
    · rw [if_pos h3] at hm
      dsimp only at hm
      by_cases hb4 : 4 ≤ countDigits (s.drop (3+1))
      · rw [if_pos hb4] at hm
        injection hm with hmk
        subst hmk
        exact dynOk_drop_step s 3 4 h3.1 h3.2 hb4 hd
      · rw [if_neg hb4] at hm
        by_cases hb3 : 3 ≤ countDigits (s.drop (3+1))
        · rw [if_pos hb3] at hm
          injection hm with hmk
          subst hmk
          exact dynOk_drop_step s 3 3 h3.1 h3.2 hb3 hd
        · rw [if_neg hb3] at hm
          exact absurd hm (by simp)
    · rw [if_neg h3] at hm
      dsimp only at hm
      exact absurd hm (by simp)

/-- Substitution step at a matched resolution segment. -/
theorem resSub_cons_some (c : Char) (t : List Char) (k : Nat)
    (hm : matchResAt (c :: t) = some k) :
    resSub (c :: t) = whTemplate ++ resSub ((c :: t).drop k) := by
  rw [resSub]
  split
  · rename_i k' hm2
    rw [hm] at hm2
    injection hm2 with h
    subst h
    rfl
  · rename_i hm2
    rw [hm] at hm2
    simp at hm2

/-- Substitution step at an unmatched character. -/
theorem resSub_cons_none (c : Char) (t : List Char)
    (hm : matchResAt (c :: t) = none) :
    resSub (c :: t) = c :: resSub t := by
  rw [resSub]
  split
  · rename_i k' hm2
    rw [hm] at hm2
    simp at hm2
  · rfl

/-- Spec-side replacement of the empty URL. -/
theorem specDyn_nil (m : Int) : specDynamicChars m [] = [] := by
  rw [specDynamicChars]

/-- Spec-side replacement at a matched resolution segment. -/
theorem specDyn_cons_some (m : Int) (c : Char) (t : List Char) (k : Nat)
    (hm : matchResAt (c :: t) = some k) :
    specDynamicChars m (c :: t) =
      (toString m).data ++ 'x' :: (toString m).data ++
        specDynamicChars m ((c :: t).drop k) := by
  rw [specDynamicChars]
  split
  · rename_i k' hm2
    rw [hm] at hm2
    injection hm2 with h
    subst h
    rfl
  · rename_i hm2
    rw [hm] at hm2
    simp at hm2

/-- Spec-side replacement at a dynamic field. -/
theorem specDyn_cons_field (m : Int) (d e : Char) (t' : List Char)
    (hm : matchResAt (openBrace :: d :: e :: t') = none) :
    specDynamicChars m (openBrace :: d :: e :: t') =
      (toString m).data ++ specDynamicChars m t' := by
  rw [specDynamicChars]
  split
  · rename_i k' hm2
    rw [hm] at hm2
    simp at hm2
  · rw [if_pos rfl]

/-- Spec-side replacement at an ordinary character. -/
theorem specDyn_cons_char (m : Int) (c : Char) (t : List Char)
    (hm : matchResAt (c :: t) = none) (hc : c ≠ openBrace) :
    specDynamicChars m (c :: t) = c :: specDynamicChars m t := by
  rw [specDynamicChars]
  split
  · rename_i k' hm2
    rw [hm] at hm2
    simp at hm2
  · rw [if_neg hc]

/-- Formatting a dynamic `\x7bw\x7d` or `\x7bh\x7d` field emits the
size. -/
theorem pyFormatWH_field (d : Char) (rest : List Char) (m : Int)
    (hd : d = 'w' ∨ d = 'h') :
    pyFormatWH (openBrace :: d :: closeBrace :: rest) m =
      match pyFormatWH rest m with
      | .ok out => .ok ((toString m).data ++ out)
      | .error e => .error e := by
  rcases hd with h | h <;> subst h <;> rw [pyFormatWH.eq_def] <;>
    simp +decide [fieldSplit]

/-- The two-phase substitute-then-format pipeline agrees with the direct
spec-side replacement on every well-formed URL — hardcoded resolutions and
dynamic width/height fields alike. -/
theorem formatWH_resSub_dyn (m : Int) :
    ∀ n (s : List Char), s.length = n → dynOk s = true →
      pyFormatWH (resSub s) m = .ok (specDynamicChars m s) := by
  intro n
  induction n using Nat.strong_induction_on with
  | _ n ih =>
    intro s hlen hok
    cases s with
    | nil =>
      have h1 : resSub [] = [] := by rw [resSub]
      rw [h1, specDyn_nil, pyFormatWH.eq_def]
    | cons c t =>
      cases hm : matchResAt (c :: t) with
      | some k =>
        have hk := matchResAt_pos _ _ hm
        have hdrop := ih (((c :: t).drop k).length)
          (by
            simp only [List.length_drop, List.length_cons]
            simp only [List.length_cons] at hlen
            omega)
          ((c :: t).drop k) rfl (dynOk_drop_match _ _ hm hok)
        rw [resSub_cons_some c t k hm, specDyn_cons_some m c t k hm,
          pyFormatWH_template, hdrop]
      | none =>
        by_cases hc : c = openBrace
        · subst hc
          obtain ⟨d, t', hteq, hdwh, hok'⟩ := dynOk_field t hok
          subst hteq
          have hm2 : matchResAt (d :: closeBrace :: t') = none := by
            apply matchResAt_none_of_not_digit
            rcases hdwh with h | h <;> subst h <;> decide
          have hm3 : matchResAt (closeBrace :: t') = none :=
            matchResAt_none_of_not_digit _ _ (by decide)
          have hres : resSub (openBrace :: d :: closeBrace :: t') =
              openBrace :: d :: closeBrace :: resSub t' := by
            rw [resSub_cons_none _ _ hm, resSub_cons_none _ _ hm2,
              resSub_cons_none _ _ hm3]
          have ht' := ih t'.length
            (by simp only [List.length_cons] at hlen; omega) t' rfl hok'
          rw [hres, pyFormatWH_field d _ m hdwh, ht',
            specDyn_cons_field m d closeBrace t' hm]
        · have hcc : c ≠ closeBrace := dynOk_head_ne c t hok hc
          have ht := ih t.length
            (by simp only [List.length_cons] at hlen; omega) t rfl
            (dynOk_tail c t hok hc)
          rw [resSub_cons_none c t hm, specDyn_cons_char m c t hm hc,
            pyFormatWH_char c _ m hc hcc, ht]

/-- Claim C10: for every cover URL the module handles — brace-free URLs
with hardcoded resolutions, and the braced dynamic-template `dynamic_uri`
values that `get_track_cover` reads; any other brace pattern makes
`str.format` raise, producing no URL at all — and every requested size, the
generated artwork URL uses min(size, 1400) as both width and height,
replacing every hardcoded 3-4 digit NNNxNNN resolution segment and filling
every dynamic width/height field with it; the cap equals min(size, 1400)
and never exceeds 1400; and `get_track_cover` applies exactly this
templating to the track's release `dynamic_uri` at the requested
resolution, so it never produces a URL requesting a resolution above
1400. -/
theorem claim_C10_artwork_cap (size : Int) (url : String)
    (hok : dynOk url.data = true) :
    _generate_artwork_url url size 1400 = .ok (specDynamicUrl url size) ∧
    (if size > 1400 then (1400:Int) else size) = min size 1400 ∧
    min size 1400 ≤ 1400 ∧
    (∀ (track_data : Dict) (rel img : Dict),
      pyOr (dGet track_data "release") (.vdict []) = .vdict rel →
      pyOr (dGet rel "image") (.vdict []) = .vdict img →
      dGet img "dynamic_uri" = .vstr url →
      get_track_cover track_data size = .ok (specDynamicUrl url size)) := by
  have hcap : (if size > 1400 then (1400:Int) else size) = min size 1400 := by
    rw [min_def]
    split_ifs <;> omega
  have hgen : _generate_artwork_url url size 1400 = .ok (specDynamicUrl url size) := by
    unfold _generate_artwork_url specDynamicUrl
    simp only [hcap]
    rw [formatWH_resSub_dyn (min size 1400) url.data.length url.data rfl hok]
  refine ⟨hgen, hcap, min_le_right _ _, ?_⟩
  intro track_data rel img hrel himg huri
  unfold get_track_cover
  rw [hrel]
  have h1 : pyGetAttr (.vdict rel) "image" = .ok (dGet rel "image") := rfl
  rw [h1]
  try dsimp only
  rw [himg]
  have h2 : pyGetAttr (.vdict img) "dynamic_uri" = .ok (dGet img "dynamic_uri") := rfl
  rw [h2]
  try dsimp only
  rw [huri]
  exact hgen

/-- The C10 witness track data: a release cover carrying the braced dynamic
template URI, the form the upstream service serves in
`release.image.dynamic_uri`. -/
def c10Track : Dict :=
  [("release", .vdict [("image", .vdict [("dynamic_uri",
    .vstr "https://geo-media.beatport.com/image_size/\x7bw\x7dx\x7bh\x7d/ab.jpg")])])]

/-- Witness for C10: requesting a 2000-pixel cover for the braced dynamic
URI yields the 1400x1400 URL, and a hardcoded 1500x1500 URL is capped to
1400x1400 as well. -/
theorem claim_C10_artwork_cap_witness :
    get_track_cover c10Track 2000 =
      .ok "https://geo-media.beatport.com/image_size/1400x1400/ab.jpg" ∧
    _generate_artwork_url
        "https://geo-media.beatport.com/image_size/1500x1500/ab.jpg" 2000 1400 =
      .ok "https://geo-media.beatport.com/image_size/1400x1400/ab.jpg" := by
  constructor
  · have h := (claim_C10_artwork_cap 2000
      "https://geo-media.beatport.com/image_size/\x7bw\x7dx\x7bh\x7d/ab.jpg"
      (by decide)).2.2.2 c10Track
      [("image", .vdict [("dynamic_uri",
        .vstr "https://geo-media.beatport.com/image_size/\x7bw\x7dx\x7bh\x7d/ab.jpg")])]
      [("dynamic_uri",
        .vstr "https://geo-media.beatport.com/image_size/\x7bw\x7dx\x7bh\x7d/ab.jpg")]
      rfl rfl rfl
    rw [h]
    simp +decide [specDynamicUrl, specDynamicChars, matchResAt, countDigits]
  · have h := (claim_C10_artwork_cap 2000
      "https://geo-media.beatport.com/image_size/1500x1500/ab.jpg"
      (by decide)).1
    rw [h]
    simp +decide [specDynamicUrl, specDynamicChars, matchResAt, countDigits]

/-- Claim C1: the dispatcher's 401 cycle — when the initial GET returns 401
it re-runs anonymous acquisition when no refresh token is stored and
otherwise runs `refresh`; a refresh failure signal surfaces the Unauthorized
`ValueError` without any retry; otherwise the original GET is retried
exactly once, a second 401 on the retry surfacing Unauthorized and never
being retried again; a 200 retry succeeds with exactly one refresh
performed. -/
theorem claim_C1_retry_bound (env : Env) (st : Session)
    (h401 : (env.gets 0).status = 401) :
    (pyTruthy st.refresh_token = false →
      (dispatchGet env st).anonCalls = 1 ∧
      (dispatchGet env st).refreshCalls = 0 ∧
      (∀ v st', get_anonymous_token env.home env.now st = (.ok v, st') →
        (dispatchGet env st).getCalls = 2)) ∧
    (pyTruthy st.refresh_token = true →
      (dispatchGet env st).refreshCalls = 1 ∧
      (dispatchGet env st).anonCalls = 0) ∧
    (pyTruthy st.refresh_token = true →
      ∀ v st', refresh env.refreshResp env.now st = (.ok v, st') →
        pyTruthy v = true →
        (dispatchGet env st).result =
          .error (.valueError ("Refresh failed: " ++ (env.gets 0).text)) ∧
        (dispatchGet env st).getCalls = 1) ∧
    (pyTruthy st.refresh_token = true →
      ∀ v st', refresh env.refreshResp env.now st = (.ok v, st') →
        pyTruthy v = false →
        (env.gets 1).status = 401 →
        (dispatchGet env st).result =
          .error (.valueError
            ("Authentication failed after retry: " ++ (env.gets 1).text)) ∧
        (dispatchGet env st).getCalls = 2 ∧
        (dispatchGet env st).refreshCalls = 1) ∧
    (pyTruthy st.refresh_token = true →
      ∀ v st', refresh env.refreshResp env.now st = (.ok v, st') →
        pyTruthy v = false →
        (env.gets 1).status = 200 →
        ∀ b, (env.gets 1).jsonBody = some b →
          (dispatchGet env st).result = .ok b ∧
          (dispatchGet env st).getCalls = 2 ∧
          (dispatchGet env st).refreshCalls = 1) := by
  refine ⟨?_, ?_, ?_, ?_, ?_⟩
  · intro hrt
    rcases hga : get_anonymous_token env.home env.now st with ⟨ares, ast⟩
    cases ares with
    | error e =>
      simp [dispatchGet, h401, hrt, hga]
    | ok v =>
      refine ⟨?_, ?_, ?_⟩ <;>
        simp [dispatchGet, h401, hrt, hga, retryRequest] <;> split <;> simp
  · intro hrt
    rcases hrf : refresh env.refreshResp env.now st with ⟨rres, rst⟩
    cases rres with
    | error e =>
      simp [dispatchGet, h401, hrt, hrf]
    | ok v =>
      cases htv : pyTruthy v with
      | true =>
        simp [dispatchGet, h401, hrt, hrf, htv]
      | false =>
        refine ⟨?_, ?_⟩ <;>
          simp [dispatchGet, h401, hrt, hrf, htv, retryRequest] <;> split <;> simp
  · intro hrt v st' hrf htv
    simp [dispatchGet, h401, hrt, hrf, htv]
  · intro hrt v st' hrf htv h2
    have h2ne : ((env.gets 1).status = 401) = True := by simp [h2]
    simp [dispatchGet, h401, hrt, hrf, htv, retryRequest, h2ne]
  · intro hrt v st' hrf htv h2 b hb
    have h2ne : ((env.gets 1).status = 401) = False := by simp [h2]
    simp [dispatchGet, h401, hrt, hrf, htv, retryRequest, h2ne,
      handleResponse, h2, respJson, hb]

/-- A concrete [401, 200] dispatcher environment: the first GET is a 401,
the retry a 200, and the refresh exchange succeeds. -/
def c1Env : Env :=
  { gets := fun n => if n = 0 then ⟨401, none, "expired", ""⟩
      else ⟨200, some (.vdict [("id", .vint 7)]), "", ""⟩,
    refreshResp := ⟨200, some (.vdict
      [("access_token", .vstr "A"), ("refresh_token", .vstr "R"),
       ("expires_in", .vint 3600)]), "", ""⟩,
    home := ⟨200, none⟩, now := 0 }

/-- A concrete session holding a stored refresh token. -/
def c1St : Session := ⟨.vstr "old", .vstr "rt", .vnone⟩

/-- Witness for C1: the [401, 200] sequence with a stored refresh token and
a successful refresh — the call succeeds after exactly one refresh and one
retry. -/
theorem claim_C1_retry_bound_witness :
    (dispatchGet c1Env c1St).result = .ok (.vdict [("id", .vint 7)]) ∧
    (dispatchGet c1Env c1St).getCalls = 2 ∧
    (dispatchGet c1Env c1St).refreshCalls = 1 :=
  (claim_C1_retry_bound c1Env c1St rfl).2.2.2.2 (by decide) .vnone
    ⟨.vstr "A", .vstr "R", .vint 3600⟩ rfl rfl rfl (.vdict [("id", .vint 7)]) rfl

/-- The concatenated free-text of a 403 body as the spec describes it: the
nonempty ones among detail, error and message joined with single spaces,
lower-cased. -/
def concatText (sd se sm : String) : String :=
  strLower (String.intercalate " " ([sd, se, sm].filter fun s => !s.isEmpty))

/-- Claim C3: for every HTTP 403 response whose body parses to a JSON object
with textual (string or absent) `detail`/`error`/`message` fields, the
dispatcher classifies by this exact precedence over the lower-cased
concatenated text: explicit word-boundary region phrases yield the
region-locked error; otherwise the substring "subscription" yields the
subscription error; otherwise "not available" together with "download" or
"stream" yields the content-unavailable error; otherwise a generic API
error carrying the first nonempty original field verbatim. -/
theorem claim_C3_forbidden_classification (env : Env) (st : Session)
    (h403 : (env.gets 0).status = 403)
    (d : Dict) (hb : (env.gets 0).jsonBody = some (.vdict d))
    (sd se sm : String)
    (hd : dGetD d "detail" (.vstr "") = .vstr sd)
    (he : dGetD d "error" (.vstr "") = .vstr se)
    (hm : dGetD d "message" (.vstr "") = .vstr sm) :
    (regionLockCheck (concatText sd se sm) = true →
      (dispatchGet env st).result = .error (.beatportError "region locked")) ∧
    (regionLockCheck (concatText sd se sm) = false →
      subStr "subscription" (concatText sd se sm) = true →
      (dispatchGet env st).result = .error (.beatportError "subscription required")) ∧
    (regionLockCheck (concatText sd se sm) = false →
      subStr "subscription" (concatText sd se sm) = false →
      (subStr "not available" (concatText sd se sm) &&
        (subStr "download" (concatText sd se sm) ||
          subStr "stream" (concatText sd se sm))) = true →
      (dispatchGet env st).result = .error (.beatportError "content not available")) ∧
    (regionLockCheck (concatText sd se sm) = false →
      subStr "subscription" (concatText sd se sm) = false →
      (subStr "not available" (concatText sd se sm) &&
        (subStr "download" (concatText sd se sm) ||
          subStr "stream" (concatText sd se sm))) = false →
      (dispatchGet env st).result = .error (.beatportError ("API error: " ++
        (if sd ≠ "" then sd
         else if se ≠ "" then se
         else if sm ≠ "" then sm
         else "access denied (HTTP 403)")))) := by
  have hout : (dispatchGet env st).result = handle403 (env.gets 0) := by
    unfold dispatchGet handleResponse
    simp [h403]
  have hcls : handle403 (env.gets 0) = classify403 d := by
    unfold handle403 respJson
    simp [hb]
  have hj : joinFiltered [.vstr sd, .vstr se, .vstr sm] =
      .ok (String.intercalate " " ([sd, se, sm].filter fun s => !s.isEmpty)) := by
    cases hsd : sd.isEmpty <;> cases hse : se.isEmpty <;> cases hsm : sm.isEmpty <;>
      simp [joinFiltered, strsOfJoin, pyTruthy, hsd, hse, hsm, Except.map]
  have hguard : (if !(concatText sd se sm).isEmpty
      then regionLockCheck (concatText sd se sm) else false) =
      regionLockCheck (concatText sd se sm) := by
    cases hemp : (concatText sd se sm).isEmpty
    · simp
    · have heq : concatText sd se sm = "" := (String.isEmpty_iff _).mp hemp
      rw [heq]
      simp
      decide
  have hlow : strLower (String.intercalate " "
      ([sd, se, sm].filter fun s => !s.isEmpty)) = concatText sd se sm := rfl
  rw [hout, hcls]
  simp only [classify403]
  rw [hd, he, hm, hj]
  dsimp only
  rw [hlow]
  simp only [hguard]
  refine ⟨?_, ?_, ?_, ?_⟩
  · intro hr
    simp [hr]
  · intro hr hsub
    simp [hr, hsub]
  · intro hr hsub hna
    simp [hr, hsub, hna]
  · intro hr hsub hna
    simp only [hr, hsub, hna, if_false, Bool.false_eq_true]
    have hft : firstTruthyFmt (.vstr sd) (.vstr se) (.vstr sm)
        "access denied (HTTP 403)" =
        (if sd ≠ "" then sd
         else if se ≠ "" then se
         else if sm ≠ "" then sm
         else "access denied (HTTP 403)") := by
      unfold firstTruthyFmt
      by_cases h1 : sd = "" <;> by_cases h2 : se = "" <;> by_cases h3 : sm = "" <;>
        simp +decide [h1, h2, h3, pyFmt, pyTruthy, isEmpty_false_iff]
    rw [hft]

/-- Witness for C3: the three spec examples — a territory body is region
locked, a subscription body needs a subscription, and an unrecognised body
surfaces the original message verbatim as a generic API error. -/
theorem claim_C3_forbidden_classification_witness :
    ((dispatchGet
        { gets := fun _ => ⟨403,
            some (.vdict [("detail",
              .vstr "This content is not available in your territory.")]), "", ""⟩,
          refreshResp := ⟨200, none, "", ""⟩, home := ⟨200, none⟩, now := 0 }
        ⟨.vnone, .vnone, .vnone⟩).result =
      .error (.beatportError "region locked")) ∧
    ((dispatchGet
        { gets := fun _ => ⟨403,
            some (.vdict [("detail", .vstr "subscription needed")]), "", ""⟩,
          refreshResp := ⟨200, none, "", ""⟩, home := ⟨200, none⟩, now := 0 }
        ⟨.vnone, .vnone, .vnone⟩).result =
      .error (.beatportError "subscription required")) ∧
    ((dispatchGet
        { gets := fun _ => ⟨403,
            some (.vdict [("detail", .vstr "weird account flag")]), "", ""⟩,
          refreshResp := ⟨200, none, "", ""⟩, home := ⟨200, none⟩, now := 0 }
        ⟨.vnone, .vnone, .vnone⟩).result =
      .error (.beatportError "API error: weird account flag")) := by
  refine ⟨?_, ?_, ?_⟩
  · exact (claim_C3_forbidden_classification _ _ rfl
      [("detail", .vstr "This content is not available in your territory.")] rfl
      "This content is not available in your territory." "" "" rfl rfl rfl).1
      (by decide)
  · exact (claim_C3_forbidden_classification _ _ rfl
      [("detail", .vstr "subscription needed")] rfl
      "subscription needed" "" "" rfl rfl rfl).2.1 (by decide) (by decide)
  · exact (claim_C3_forbidden_classification _ _ rfl
      [("detail", .vstr "weird account flag")] rfl
      "weird account flag" "" "" rfl rfl rfl).2.2.2 (by decide) (by decide)
      (by decide)

/-- Witness for C8: a concrete 404 whose body carries only a `detail`
field. -/
theorem claim_C8_notfound_classification_witness :
    (dispatchGet
        { gets := fun _ =>
            ⟨404, some (.vdict [("detail", .vstr "Not found.")]), "", ""⟩,
          refreshResp := ⟨200, none, "", ""⟩,
          home := ⟨200, none⟩, now := 0 }
        ⟨.vnone, .vnone, .vnone⟩).result =
      .error (.beatportError "not found: Not found.") :=
  (((claim_C8_notfound_classification _ _ rfl).2.1
      [("detail", .vstr "Not found.")] rfl).1 "Not found." rfl (by decide))

end Beatport
